import Mathlib

/-!
Shallow embedding of the AMD HSMP client library (libhsmp.c) and proofs
about its mailbox protocol engine, capability gate, topology discovery
and CPU-table lookups.

Hardware and OS effects (PCI config-space accesses, the advisory file
lock, sleeps, the bus scan and the /proc/cpuinfo load) are modelled by
an explicit event trace and an environment record supplying the values
the hardware would return.  Machine integers are modelled as Nat with
explicit `% 256` where u8 wrap-around matters.
-/

set_option autoImplicit false

namespace LibHsmp

/-! Constants from libhsmp.c / libhsmp.h. -/

def MAX_SOCKETS : Nat := 2
def MAX_NBIOS : Nat := 8
def MAX_CPUS : Nat := 256

def HSMP_STATUS_NOT_READY : Nat := 0x00
def HSMP_STATUS_OK : Nat := 0x01
def HSMP_ERR_INVALID_MSG_ID : Nat := 0xFE
def HSMP_ERR_INVALID_ARG : Nat := 0xFF

def PCI_VENDOR_ID_AMD : Nat := 0x1022
def F17F19_IOHC_DEVID : Nat := 0x1480
def SMN_IOHCMISC0_NB_BUS_NUM_CNTL : Nat := 0x13B10044
def SMN_IOHCMISC_OFFSET : Nat := 0x00100000

/-- SMN addresses stored into `hsmp_access` by hsmp_init; every mailbox
exchange in the library happens after hsmp_init has set them, so they are
modelled as constants. -/
def MBOX_MSG_ID : Nat := 0x3B10534
def MBOX_STATUS : Nat := 0x3B10980
def MBOX_DATA : Nat := 0x3B109E0
def MBOX_TIMEOUT : Nat := 500

/-- HSMP message ids (enum hsmp_msg_t). -/
def HSMP_TEST : Nat := 1
def HSMP_GET_SMU_VER : Nat := 2
def HSMP_GET_PROTO_VER : Nat := 3
def HSMP_GET_SOCKET_POWER : Nat := 4
def HSMP_SET_SOCKET_POWER_LIMIT : Nat := 5
def HSMP_GET_SOCKET_POWER_LIMIT : Nat := 6
def HSMP_GET_SOCKET_POWER_LIMIT_MAX : Nat := 7
def HSMP_SET_BOOST_LIMIT : Nat := 8
def HSMP_SET_BOOST_LIMIT_SOCKET : Nat := 9
def HSMP_GET_BOOST_LIMIT : Nat := 10
def HSMP_GET_PROC_HOT : Nat := 11
def HSMP_SET_XGMI_LINK_WIDTH : Nat := 12
def HSMP_SET_DF_PSTATE : Nat := 13
def HSMP_AUTO_DF_PSTATE : Nat := 14
def HSMP_GET_FCLK_MCLK : Nat := 15
def HSMP_GET_CCLK_THROTTLE_LIMIT : Nat := 16
def HSMP_GET_C0_PERCENT : Nat := 17
def HSMP_SET_NBIO_DPM_LEVEL : Nat := 18
def HSMP_GET_DDR_BANDWIDTH : Nat := 20

/-- errno values the library assigns (plus EOTHER standing for any errno a
failing libc call such as open/fopen left behind). -/
inductive Errno where
  | ENOTSUP
  | EINVAL
  | EPERM
  | EOTHER
deriving DecidableEq, Repr

/-- The two index/data aperture ports (struct smu_port smu, hsmp). -/
inductive PciPort where
  | smu
  | hsmp
deriving DecidableEq, Repr

/-- Observable hardware/OS events, recorded in program order. -/
inductive Ev where
  | pciWrite (port : PciPort) (addr val : Nat)
  | pciRead (port : PciPort) (addr : Nat)
  | sleep1ms
  | lockAcquire
  | lockRelease
  | busScan
  | cpuinfoLoad
deriving DecidableEq, Repr

/-- One entry of hsmp_data.nbios (struct nbio_dev).  The pci_dev pointer is
modelled as the index of the device in the environment's device list. -/
structure NbioDev where
  dev : Option Nat
  id : Nat
  bus_base : Nat
  bus_limit : Nat
deriving DecidableEq, Repr

/-- One entry of hsmp_data.cpus (struct cpu_dev). -/
structure CpuDev where
  valid : Bool
  socket_id : Int
  apicid : Int
deriving DecidableEq, Repr

/-- The mutable process-global hsmp_data.  `xcount` is model bookkeeping:
the number of mailbox exchanges performed so far, used to index the
environment's per-exchange hardware behaviour. -/
structure LibState where
  pacc : Bool
  nbios : List NbioDev
  cpus : List CpuDev
  smu_firmware : Nat
  hsmp_proto_ver : Nat
  x86_family : Nat
  inited : Bool
  hsmp_disabled : Bool
  xcount : Nat
deriving DecidableEq, Repr

/-- Static zero initialization of hsmp_data. -/
def zeroNbio : NbioDev := ⟨none, 0, 0, 0⟩

def zeroCpu : CpuDev := ⟨false, 0, 0⟩

def initState : LibState :=
  ⟨false, List.replicate MAX_NBIOS zeroNbio, List.replicate MAX_CPUS zeroCpu,
   0, 0, 0, false, false, 0⟩

/-- struct hsmp_message (args listed explicitly; unused slots are zero, as
the C callers zero the struct). -/
structure HsmpMessage where
  msg_num : Nat
  num_args : Nat
  response_sz : Nat
  args : List Nat
deriving DecidableEq, Repr

/-- Mailbox hardware behaviour for one exchange: the value of the status
register at the n-th poll read, and the value of data-register slot k when
the responses are read. -/
structure Mbox where
  status : Nat → Nat
  resp : Nat → Nat

/-- Identity of one device found by the PCI bus scan. -/
structure PciDevInfo where
  vendor_id : Nat
  device_id : Nat
  bus : Nat
deriving DecidableEq, Repr

/-- One parsed /proc/cpuinfo processor record (the text parsing itself is
environment input; a record models the processor / physical id / apicid
triple hsmp_get_cpu_data extracts). -/
structure CpuRec where
  cpu : Nat
  socket : Int
  apicid : Int
deriving DecidableEq, Repr

/-- The environment: everything the process observes from hardware and OS.
`cpuinfo = none` models hsmp_get_cpu_data failing (fopen failure or a
record missing a required field); `exchanges n` is the mailbox behaviour
of the n-th exchange performed by the process. -/
structure Env where
  euid : Nat
  cpuid0_ebx : Nat
  cpuid0_ecx : Nat
  cpuid0_edx : Nat
  cpuid1_eax : Nat
  alloc_ok : Bool
  devices : List PciDevInfo
  iohc_read : Nat → Nat
  cpuinfo : Option (List CpuRec)
  lock_ok : Bool
  exchanges : Nat → Mbox

/-- Result of a call: C return value, errno if the call chain assigned it
(none = left untouched), resulting global state, response words read, and
the event trace. -/
structure OpRes where
  ret : Int
  errno : Option Errno
  st : LibState
  response : List Nat
  trace : List Ev
deriving Repr

/-! Capability gate and table lookups. -/

/-- msg_id_supported from libhsmp.c:165. -/
def msg_id_supported (proto_ver : Nat) (msg_id : Nat) : Bool :=
  if proto_ver = 1 then decide (msg_id ≤ HSMP_GET_C0_PERCENT)
  else if proto_ver = 2 then decide (msg_id ≤ HSMP_SET_NBIO_DPM_LEVEL)
  else if proto_ver = 3 then decide (msg_id ≤ HSMP_GET_DDR_BANDWIDTH)
  else false

/-- socket_id_to_dev from libhsmp.c:240. -/
def socket_id_to_dev (st : LibState) (socket_id : Int) : Option Nat :=
  if socket_id < 0 ∨ socket_id ≥ (MAX_SOCKETS : Int) then none
  else ((st.nbios.getD (socket_id.toNat * 4) zeroNbio).dev)

/-- bus_to_nbio from libhsmp.c:427 (first index whose range holds the bus,
else -1). -/
def bus_to_nbio_idx (nbios : List NbioDev) (bus : Nat) : Int :=
  match (List.range MAX_NBIOS).find?
      (fun i => (nbios.getD i zeroNbio).bus_base ≤ bus ∧
                bus ≤ (nbios.getD i zeroNbio).bus_limit) with
  | some i => (i : Int)
  | none => -1

/-- cpu_apicid from libhsmp.c:440.  The C bound check is `cpu > MAX_CPUS`,
so cpu = 256 and every negative cpu reach `hsmp_data.cpus[cpu]`, an access
outside the 256-entry array; those executions are undefined behaviour and
the model returns `none` for them. -/
def cpu_apicid (st : LibState) (cpu : Int) : Option (Int × Option Errno) :=
  if cpu > (MAX_CPUS : Int) then some (-1, some Errno.EINVAL)
  else if 0 ≤ cpu ∧ cpu < (MAX_CPUS : Int) then
    let c := st.cpus.getD cpu.toNat zeroCpu
    if ¬ c.valid then some (-1, some Errno.EINVAL)
    else some (c.apicid, none)
  else none

/-- cpu_socket_id from libhsmp.c:455, same bound check as cpu_apicid. -/
def cpu_socket_id (st : LibState) (cpu : Int) : Option (Int × Option Errno) :=
  if cpu > (MAX_CPUS : Int) then some (-1, some Errno.EINVAL)
  else if 0 ≤ cpu ∧ cpu < (MAX_CPUS : Int) then
    let c := st.cpus.getD cpu.toNat zeroCpu
    if ¬ c.valid then some (-1, some Errno.EINVAL)
    else some (c.socket_id, none)
  else none

/-! Mailbox protocol engine. -/

/-- The poll loop of _hsmp_send_message (libhsmp.c:324): sleep one
millisecond, read the status register; if NOT_READY, decrement the budget
and fail once it reaches zero, else retry.  Returns the trace of the loop
and the first status value different from NOT_READY (`none` = timeout).
`i` counts the reads performed so far, `fuel` is the remaining budget. -/
def pollStatus (stat : Nat → Nat) : Nat → Nat → List Ev × Option Nat
  | _, 0 => ([], none)
  | i, t + 1 =>
    let evs := [Ev.sleep1ms, Ev.pciRead PciPort.hsmp MBOX_STATUS]
    if stat i = HSMP_STATUS_NOT_READY then
      if t = 0 then (evs, none)
      else
        let r := pollStatus stat (i + 1) t
        (evs ++ r.1, r.2)
    else (evs, some (stat i))

/-- Result of _hsmp_send_message: return value, errno if assigned,
whether the call set hsmp_data.hsmp_disabled, response words, trace. -/
structure SendRes where
  ret : Int
  errno : Option Errno
  setDisabled : Bool
  response : List Nat
  trace : List Ev
deriving Repr

/-- The register writes and poll trace every _hsmp_send_message execution
produces before interpreting the status: clear the status register, write
the arguments into successive data slots, write the message id (the
doorbell), then the poll loop (libhsmp.c:291-331). -/
def corePrefix (hw : Mbox) (msg : HsmpMessage) : List Ev :=
  [Ev.pciWrite PciPort.hsmp MBOX_STATUS HSMP_STATUS_NOT_READY] ++
  (List.range msg.num_args).map
    (fun i => Ev.pciWrite PciPort.hsmp (MBOX_DATA + 4 * i) (msg.args.getD i 0)) ++
  [Ev.pciWrite PciPort.hsmp MBOX_MSG_ID msg.msg_num] ++
  (pollStatus hw.status 0 MBOX_TIMEOUT).1

/-- The response-word reads after an OK status (libhsmp.c:371-380). -/
def coreRespTrace (msg : HsmpMessage) : List Ev :=
  (List.range msg.response_sz).map
    (fun i => Ev.pciRead PciPort.hsmp (MBOX_DATA + 4 * i))

/-- _hsmp_send_message from libhsmp.c:284.  smu_pci_write/smu_pci_read
always return 0 in the source, so their error branches are dead code and
the model has no access-failure path. -/
def hsmp_send_message_core (hw : Mbox) (proto_ver : Nat) (msg : HsmpMessage) : SendRes :=
  match (pollStatus hw.status 0 MBOX_TIMEOUT).2 with
  | none => ⟨-1, some Errno.ENOTSUP, true, [], corePrefix hw msg⟩
  | some stat =>
    if stat = HSMP_ERR_INVALID_MSG_ID ∧ msg_id_supported proto_ver msg.msg_num then
      ⟨-1, some Errno.ENOTSUP, false, [], corePrefix hw msg⟩
    else if stat ≠ HSMP_STATUS_OK then
      ⟨(stat : Int), none, false, [], corePrefix hw msg⟩
    else
      ⟨0, none, false, (List.range msg.response_sz).map hw.resp,
       corePrefix hw msg ++ coreRespTrace msg⟩

/-- hsmp_send_message from libhsmp.c:385: socket lookup (EINVAL before the
lock), lock acquisition, the exchange, unconditional unlock. -/
def hsmp_send_message (env : Env) (st : LibState) (socket_id : Int)
    (msg : HsmpMessage) : OpRes :=
  match socket_id_to_dev st socket_id with
  | none => ⟨-1, some Errno.EINVAL, st, [], []⟩
  | some _ =>
    if ¬ env.lock_ok then ⟨-1, some Errno.EOTHER, st, [], []⟩
    else
      let r := hsmp_send_message_core (env.exchanges st.xcount) st.hsmp_proto_ver msg
      ⟨r.ret, r.errno,
       { st with hsmp_disabled := st.hsmp_disabled || r.setDisabled,
                 xcount := st.xcount + 1 },
       r.response, Ev.lockAcquire :: r.trace ++ [Ev.lockRelease]⟩

/-! Topology discovery (hsmp_setup_nbios and helpers). -/

/-- hsmp_clear_nbio_table entry value (libhsmp.c:608). -/
def clearedNbio : NbioDev := ⟨none, 0, 0xFF, 0⟩

def clearedTable : List NbioDev := List.replicate MAX_NBIOS clearedNbio

/-- The device-matching scan loop of hsmp_setup_nbios (libhsmp.c:651):
walk the scanned device list, keep (handle, bus) of each AMD IOHC device,
fail (`none`) when a ninth match is found.  Handles are positions in the
environment's device list. -/
def scanMatches : List (Nat × PciDevInfo) → List (Nat × Nat) → Option (List (Nat × Nat))
  | [], acc => some acc
  | (i, d) :: rest, acc =>
    if d.vendor_id = PCI_VENDOR_ID_AMD ∧ d.device_id = F17F19_IOHC_DEVID then
      if acc.length = MAX_NBIOS then none
      else scanMatches rest (acc ++ [(i, d.bus)])
    else scanMatches rest acc

/-- One sweep of the inner loop of the bus_base sort (libhsmp.c:678-693)
for a fixed outer index i, written structurally: `cur` is the current
a[i], the list argument is a[i+1..]; each recursion step is one j
iteration, swapping the (dev, bus_base) pair when a[j].bus_base <
a[i].bus_base.  Returns the final a[i] and the final a[i+1..]. -/
def innerPass (cur : Nat × Nat) : List (Nat × Nat) → (Nat × Nat) × List (Nat × Nat)
  | [] => (cur, [])
  | x :: xs =>
    if x.2 < cur.2 then
      let r := innerPass x xs
      (r.1, cur :: r.2)
    else
      let r := innerPass cur xs
      (r.1, x :: r.2)

/-- The outer loop of the sort, fueled for structural termination; one
step per outer index i.  `sortPasses` below supplies fuel = length, which
is always enough since `innerPass` preserves length. -/
def sortGo : Nat → List (Nat × Nat) → List (Nat × Nat)
  | 0, l => l
  | _ + 1, [] => []
  | fuel + 1, cur :: rest =>
    let r := innerPass cur rest
    r.1 :: sortGo fuel r.2

/-- The in-place sort of the first num_nbios table entries by bus_base
(libhsmp.c:677-693). -/
def sortPasses (l : List (Nat × Nat)) : List (Nat × Nat) :=
  sortGo l.length l

/-- The bus_limit assignment loop (libhsmp.c:695-701): every entry but the
last gets the next entry's bus_base - 1 (u8 arithmetic, hence mod 256),
the last gets 0xFF. -/
def assign_limits : List (Nat × Nat) → List NbioDev
  | [] => []
  | [p] => [⟨some p.1, 0, p.2, 0xFF⟩]
  | p :: q :: rest => ⟨some p.1, 0, p.2, (q.2 + 255) % 256⟩ :: assign_limits (q :: rest)

/-- The IOHC id loop of hsmp_setup_nbios (libhsmp.c:703-728): for each
table index i, read the NB_BUS_NUM_CNTL register of the i-th device, map
the reported bus base back to a table index, and record the tile id
i mod 4 there; an unmappable bus fails discovery. -/
def iohcLoop (env : Env) (tbl : List NbioDev) : List Nat → Option (List NbioDev) × List Ev
  | [] => (some tbl, [])
  | i :: rest =>
    let addr := SMN_IOHCMISC0_NB_BUS_NUM_CNTL + (i % 4) * SMN_IOHCMISC_OFFSET
    let ev := Ev.pciRead PciPort.smu addr
    let base := env.iohc_read i % 256
    match (List.range MAX_NBIOS).find?
        (fun k => (tbl.getD k zeroNbio).bus_base ≤ base ∧
                  base ≤ (tbl.getD k zeroNbio).bus_limit) with
    | none => (none, [ev])
    | some idx =>
      let tbl' := tbl.set idx { tbl.getD idx zeroNbio with id := i % 4 }
      let r := iohcLoop env tbl' rest
      (r.1, ev :: r.2)

/-- hsmp_cleanup_nbios (libhsmp.c:620): free the PCI access handle and
clear the table. -/
def hsmp_cleanup_nbios_st (st : LibState) : LibState :=
  { st with pacc := false, nbios := clearedTable }

/-- The shared nbio_setup_error exit (libhsmp.c:741): cleanup, errno
ENOTSUP, return -1. -/
def nbioSetupError (st : LibState) (tr : List Ev) : OpRes :=
  ⟨-1, some Errno.ENOTSUP, hsmp_cleanup_nbios_st st, [], tr⟩

/-- hsmp_setup_nbios (libhsmp.c:630).  The intermediate partially-filled
table the C code keeps in hsmp_data while it works is not observable from
outside the call (every error path clears it), so the model builds the
table functionally and commits it on success. -/
def hsmp_setup_nbios (env : Env) (st0 : LibState) : OpRes :=
  let st1 := { st0 with nbios := clearedTable }
  if ¬ env.alloc_ok then nbioSetupError st1 []
  else
    let st2 := { st1 with pacc := true }
    let tr : List Ev := [Ev.busScan]
    match scanMatches env.devices.enum [] with
    | none => nbioSetupError st2 tr
    | some ms =>
      if ms.length = 0 ∨ ms.length % (MAX_NBIOS / 2) ≠ 0 then nbioSetupError st2 tr
      else
        let tbl := assign_limits (sortPasses ms) ++
          List.replicate (MAX_NBIOS - ms.length) clearedNbio
        let r := iohcLoop env tbl (List.range ms.length)
        match r.1 with
        | none => nbioSetupError st2 (tr ++ r.2)
        | some tbl2 => ⟨0, none, { st2 with nbios := tbl2 }, [], tr ++ r.2⟩

/-! Initialization lifecycle. -/

/-- The vendor id get_system_info derives from the cpuid leaf-0 strings
(libhsmp.c:565): 1 = Intel, 2 = AMD, 0 = unknown. -/
def cpuid_vendor_id (env : Env) : Nat :=
  if env.cpuid0_ebx = 0x756e6547 ∧ env.cpuid0_ecx = 0x6c65746e ∧
     env.cpuid0_edx = 0x49656e69 then 1
  else if env.cpuid0_ebx = 0x68747541 ∧ env.cpuid0_ecx = 0x444d4163 ∧
     env.cpuid0_edx = 0x69746e65 then 2
  else 0

/-- The family number get_system_info decodes from cpuid leaf-1 eax
(libhsmp.c:571-576). -/
def cpuid_family (env : Env) : Nat :=
  let family0 := (env.cpuid1_eax >>> 8) &&& 0xf
  if family0 = 0xf then family0 + ((env.cpuid1_eax >>> 20) &&& 0xff) else family0

/-- get_system_info (libhsmp.c:558).  The model number computation only
feeds debug output and the compiled-out HSMP_FAMILY_0x17 variant, so it
is omitted; the default build supports vendor AMD with family ≥ 0x19. -/
def get_system_info (env : Env) (st : LibState) : OpRes :=
  let st' := { st with x86_family := cpuid_family env }
  if cpuid_vendor_id env = 2 ∧ cpuid_family env ≥ 0x19 then ⟨0, none, st', [], []⟩
  else ⟨-1, some Errno.ENOTSUP, st', [], []⟩

/-- The record-filling loop of hsmp_get_cpu_data (libhsmp.c:773): records
are processed in order; a record with cpu ≥ MAX_CPUS stops processing
(the C `break`); each processed record stores socket id and apicid and
marks the entry valid. -/
def fill_cpus : List CpuRec → List CpuDev → List CpuDev
  | [], tbl => tbl
  | r :: rest, tbl =>
    if r.cpu ≥ MAX_CPUS then tbl
    else fill_cpus rest (tbl.set r.cpu ⟨true, r.socket, r.apicid⟩)

/-- hsmp_get_cpu_data (libhsmp.c:757).  `env.cpuinfo = none` covers both
failure modes (fopen failure with errno from libc, malformed records with
errno EINVAL); EOTHER stands for whichever errno that was. -/
def hsmp_get_cpu_data (env : Env) (st : LibState) : OpRes :=
  match env.cpuinfo with
  | none => ⟨-1, some Errno.EOTHER, st, [], [Ev.cpuinfoLoad]⟩
  | some recs =>
    ⟨0, none, { st with cpus := fill_cpus recs st.cpus }, [], [Ev.cpuinfoLoad]⟩

/-- The probe's HSMP_TEST message (libhsmp.c:495): one argument 1, one
response word. -/
def testMsg : HsmpMessage := ⟨HSMP_TEST, 1, 1, [1]⟩

def smuVerMsg : HsmpMessage := ⟨HSMP_GET_SMU_VER, 0, 1, [0xDEADBEEF]⟩

def protoVerMsg : HsmpMessage := ⟨HSMP_GET_PROTO_VER, 0, 1, [0xDEADBEEF]⟩

/-- hsmp_probe (libhsmp.c:478), with the two-socket loop unrolled: for
each socket with a device, a TEST exchange whose response must echo
argument + 1; on the first such socket additionally the SMU firmware
version and HSMP interface version queries, whose raw responses are
stored. -/
def hsmp_probe (env : Env) (st0 : LibState) : OpRes :=
  match socket_id_to_dev st0 0 with
  | none => ⟨0, none, st0, [], []⟩
  | some _ =>
    let r1 := hsmp_send_message env st0 0 testMsg
    if r1.ret ≠ 0 then ⟨-1, some Errno.ENOTSUP, r1.st, [], r1.trace⟩
    else if r1.response.getD 0 0 ≠ 2 then ⟨-1, some Errno.ENOTSUP, r1.st, [], r1.trace⟩
    else
      let r2 := hsmp_send_message env r1.st 0 smuVerMsg
      if r2.ret ≠ 0 then ⟨-1, some Errno.ENOTSUP, r2.st, [], r1.trace ++ r2.trace⟩
      else
        let st2 := { r2.st with smu_firmware := r2.response.getD 0 0 }
        let r3 := hsmp_send_message env st2 0 protoVerMsg
        if r3.ret ≠ 0 then
          ⟨-1, some Errno.ENOTSUP, r3.st, [], r1.trace ++ r2.trace ++ r3.trace⟩
        else
          let st3 := { r3.st with hsmp_proto_ver := r3.response.getD 0 0 }
          match socket_id_to_dev st3 1 with
          | none => ⟨0, none, st3, [], r1.trace ++ r2.trace ++ r3.trace⟩
          | some _ =>
            let r4 := hsmp_send_message env st3 1 testMsg
            if r4.ret ≠ 0 then
              ⟨-1, some Errno.ENOTSUP, r4.st, [],
               r1.trace ++ r2.trace ++ r3.trace ++ r4.trace⟩
            else if r4.response.getD 0 0 ≠ 2 then
              ⟨-1, some Errno.ENOTSUP, r4.st, [],
               r1.trace ++ r2.trace ++ r3.trace ++ r4.trace⟩
            else ⟨0, none, r4.st, [], r1.trace ++ r2.trace ++ r3.trace ++ r4.trace⟩

/-- hsmp_init (libhsmp.c:822): system info check, discovery, CPU table
load, probe; any failure after discovery tears the nbio table down; on
success the initialized flag is set. -/
def hsmp_init (env : Env) (st0 : LibState) : OpRes :=
  let r1 := get_system_info env st0
  if r1.ret ≠ 0 then ⟨-1, r1.errno, r1.st, [], r1.trace⟩
  else
    let r2 := hsmp_setup_nbios env r1.st
    if r2.ret ≠ 0 then ⟨-1, r2.errno, r2.st, [], r1.trace ++ r2.trace⟩
    else
      let r3 := hsmp_get_cpu_data env r2.st
      if r3.ret ≠ 0 then
        ⟨r3.ret, r3.errno, hsmp_cleanup_nbios_st r3.st, [],
         r1.trace ++ r2.trace ++ r3.trace⟩
      else
        let r4 := hsmp_probe env r3.st
        if r4.ret ≠ 0 then
          ⟨r4.ret, r4.errno, hsmp_cleanup_nbios_st r4.st, [],
           r1.trace ++ r2.trace ++ r3.trace ++ r4.trace⟩
        else
          ⟨0, none, { r4.st with inited := true }, [],
           r1.trace ++ r2.trace ++ r3.trace ++ r4.trace⟩

/-- hsmp_enter (libhsmp.c:860): privilege check, sticky disabled
short-circuit, lazy initialization, capability-gate check. -/
def hsmp_enter (env : Env) (st : LibState) (msg_id : Nat) : OpRes :=
  if env.euid ≠ 0 then ⟨-1, some Errno.EPERM, st, [], []⟩
  else if st.hsmp_disabled then ⟨-1, some Errno.ENOTSUP, st, [], []⟩
  else
    let r := if ¬ st.inited then hsmp_init env st else ⟨0, none, st, [], []⟩
    if r.ret ≠ 0 then ⟨r.ret, r.errno, r.st, [], r.trace⟩
    else if ¬ msg_id_supported r.st.hsmp_proto_ver msg_id then
      ⟨-1, some Errno.ENOTSUP, r.st, [], r.trace⟩
    else ⟨0, none, r.st, [], r.trace⟩

/-- The HSMP_GET_SOCKET_POWER message (libhsmp.c:947): no arguments, one
response word. -/
def powerMsg : HsmpMessage := ⟨HSMP_GET_SOCKET_POWER, 0, 1, []⟩

/-- hsmp_socket_power (libhsmp.c:933), the representative public
operation: capability gate, null output pointer check (the null flag
models `power_mw == NULL`), one exchange; the response word is the
returned power reading. -/
def hsmp_socket_power (env : Env) (st : LibState) (socket_id : Int)
    (power_mw_null : Bool) : OpRes :=
  let e := hsmp_enter env st HSMP_GET_SOCKET_POWER
  if e.ret ≠ 0 then ⟨-1, e.errno, e.st, [], e.trace⟩
  else if power_mw_null then ⟨-1, some Errno.EINVAL, e.st, [], e.trace⟩
  else
    let r := hsmp_send_message env e.st socket_id powerMsg
    if r.ret ≠ 0 then ⟨r.ret, r.errno, r.st, [], e.trace ++ r.trace⟩
    else ⟨0, none, r.st, [r.response.getD 0 0], e.trace ++ r.trace⟩

/-! Concrete environments and states used to instantiate the theorems. -/

/-- Mailbox that reports OK at the first poll and answers `v` in data
slot reads. -/
def okMbox (v : Nat) : Mbox := ⟨fun _ => HSMP_STATUS_OK, fun _ => v⟩

/-- Mailbox that never leaves the not-ready state (HSMP disabled in
BIOS). -/
def deadMbox : Mbox := ⟨fun _ => HSMP_STATUS_NOT_READY, fun _ => 0⟩

/-- Mailbox that reports status `s` at the first poll. -/
def statMbox (s : Nat) : Mbox := ⟨fun _ => s, fun _ => 0⟩

/-- A root, AMD family 0x19, 1-socket (4 IOHC devices) environment with
the given per-exchange mailbox behaviour. -/
def mkEnv (xs : Nat → Mbox) : Env :=
  { euid := 0
    cpuid0_ebx := 0x68747541, cpuid0_ecx := 0x444d4163, cpuid0_edx := 0x69746e65
    cpuid1_eax := 0xA00F00
    alloc_ok := true
    devices := [⟨0x1022, 0x1480, 0⟩, ⟨0x1022, 0x1480, 0x40⟩,
                ⟨0x1022, 0x1480, 0x80⟩, ⟨0x1022, 0x1480, 0xC0⟩]
    iohc_read := fun i => 0x40 * i
    cpuinfo := some [⟨0, 0, 0⟩]
    lock_ok := true
    exchanges := xs }

/-- Exchange behaviour of a healthy 1-socket platform with interface
version 3: probe test echoes 2, then firmware and interface versions,
then every data request answers 120000. -/
def goodExchanges : Nat → Mbox := fun n =>
  if n = 0 then okMbox 2
  else if n = 1 then okMbox 0x00112233
  else if n = 2 then okMbox 3
  else okMbox 120000

def envGood : Env := mkEnv goodExchanges

/-- Environment whose first probe test exchange completes with status OK
but echoes 5 instead of 2 (an echo-mismatch probe failure); every later
exchange behaves healthily. -/
def envEchoBad : Env := mkEnv (fun n =>
  if n = 0 then okMbox 5
  else if n = 1 then okMbox 2
  else if n = 2 then okMbox 0x00112233
  else if n = 3 then okMbox 3
  else okMbox 120000)

/-- Environment whose firmware reports HSMP interface version 4. -/
def envVer4 : Env := mkEnv (fun n =>
  if n = 0 then okMbox 2
  else if n = 1 then okMbox 0x00112233
  else if n = 2 then okMbox 4
  else okMbox 120000)

/-- Environment whose mailbox never becomes ready. -/
def envDead : Env := mkEnv (fun _ => deadMbox)

/-- The process state after a successful 1-socket initialization with
interface version 3 (what `hsmp_socket_power envGood initState 0 false`
leaves behind, written out closed for use in witnesses). -/
def readyState : LibState :=
  { initState with
    pacc := true
    nbios := [⟨some 0, 0, 0, 0x3F⟩, ⟨some 1, 1, 0x40, 0x7F⟩,
              ⟨some 2, 2, 0x80, 0xBF⟩, ⟨some 3, 3, 0xC0, 0xFF⟩] ++
             List.replicate 4 clearedNbio
    cpus := fill_cpus [⟨0, 0, 0⟩] initState.cpus
    smu_firmware := 0x00112233
    hsmp_proto_ver := 3
    x86_family := 0x19
    inited := true
    xcount := 3 }

/-! Additional environments, observation predicates and specification-side
definitions used by the theorems. -/

/-- A 1-socket environment whose four IOHC devices host buses 1..4 (no
device hosts bus base 0); hardware id reads report those same bases. -/
def envBase1 : Env :=
  { envGood with
    devices := [⟨0x1022, 0x1480, 1⟩, ⟨0x1022, 0x1480, 2⟩,
                ⟨0x1022, 0x1480, 3⟩, ⟨0x1022, 0x1480, 4⟩]
    iohc_read := fun i => i + 1 }

/-- An environment with five matching IOHC devices. -/
def envFiveDevs : Env :=
  { envGood with devices := envGood.devices ++ [⟨0x1022, 0x1480, 0xE0⟩] }

/-- Number of devices in the environment matching the AMD IOHC
vendor/device identity that hsmp_setup_nbios scans for. -/
def matchCount (env : Env) : Nat :=
  env.devices.countP
    (fun d => decide (d.vendor_id = PCI_VENDOR_ID_AMD ∧ d.device_id = F17F19_IOHC_DEVID))

/-- Trace observation: the event is the poll loop's sleep. -/
def isSleep : Ev → Bool
  | Ev.sleep1ms => true
  | _ => false

/-- Trace observation: a read of the mailbox status register. -/
def isStatusRead : Ev → Bool
  | Ev.pciRead PciPort.hsmp a => a == MBOX_STATUS
  | _ => false

/-- Trace observation: a register read at any address other than the
mailbox status register (in particular any data-register read). -/
def isNonStatusRead : Ev → Bool
  | Ev.pciRead _ a => a != MBOX_STATUS
  | _ => false

def isLockAcq : Ev → Bool
  | Ev.lockAcquire => true
  | _ => false

def isLockRel : Ev → Bool
  | Ev.lockRelease => true
  | _ => false

def isBusScan : Ev → Bool
  | Ev.busScan => true
  | _ => false

/-- Trace observation: any hardware register access. -/
def isPciAccess : Ev → Bool
  | Ev.pciRead _ _ => true
  | Ev.pciWrite _ _ _ => true
  | _ => false

/-- The bus range [bus_base, bus_limit] of a table entry contains bus b. -/
def inRange (e : NbioDev) (b : Nat) : Prop :=
  e.bus_base ≤ b ∧ b ≤ e.bus_limit

instance (e : NbioDev) (b : Nat) : Decidable (inRange e b) := by
  unfold inRange
  infer_instance

/-- Structural well-formedness of a discovery table: strictly ascending
bus bases, each bus_limit abutting the next bus_base, last bus_limit
255. -/
def chainOk : List NbioDev → Prop
  | [] => True
  | [e] => e.bus_limit = 0xFF
  | e1 :: e2 :: rest =>
    e1.bus_base < e2.bus_base ∧ e1.bus_limit + 1 = e2.bus_base ∧ chainOk (e2 :: rest)

/-- Modelled from the spec: the negotiated protocol version the spec
describes — the lesser of the library's own maximum supported version (3)
and the version the service processor reports.  Compared against the
version the code actually stores. -/
def negotiated_version_spec (reported : Nat) : Nat := min 3 reported

/-! Helper lemmas about the poll loop and traces. -/

theorem pollStatus_succ (stat : Nat → Nat) (i t : Nat) :
    pollStatus stat i (t + 1) =
      if stat i = HSMP_STATUS_NOT_READY then
        if t = 0 then ([Ev.sleep1ms, Ev.pciRead PciPort.hsmp MBOX_STATUS], none)
        else ([Ev.sleep1ms, Ev.pciRead PciPort.hsmp MBOX_STATUS] ++
                (pollStatus stat (i + 1) t).1,
              (pollStatus stat (i + 1) t).2)
      else ([Ev.sleep1ms, Ev.pciRead PciPort.hsmp MBOX_STATUS], some (stat i)) := by
  rfl

theorem pollStatus_mem (stat : Nat → Nat) :
    ∀ fuel i, ∀ e ∈ (pollStatus stat i fuel).1,
      e = Ev.sleep1ms ∨ e = Ev.pciRead PciPort.hsmp MBOX_STATUS := by
  intro fuel
  induction fuel with
  | zero => intro i e he; simp [pollStatus] at he
  | succ t ih =>
    intro i e he
    rw [pollStatus_succ] at he
    by_cases h0 : stat i = HSMP_STATUS_NOT_READY
    · rw [if_pos h0] at he
      by_cases ht : t = 0
      · rw [if_pos ht] at he
        simp at he
        rcases he with h | h <;> simp [h]
      · rw [if_neg ht] at he
        simp at he
        rcases he with h | h | h
        · simp [h]
        · simp [h]
        · exact ih (i + 1) e h
    · rw [if_neg h0] at he
      simp at he
      rcases he with h | h <;> simp [h]

theorem pollStatus_timeout (stat : Nat → Nat) :
    ∀ fuel i, (∀ j, i ≤ j → j < i + fuel → stat j = HSMP_STATUS_NOT_READY) →
      (pollStatus stat i fuel).2 = none ∧
      (pollStatus stat i fuel).1.countP isSleep = fuel ∧
      (pollStatus stat i fuel).1.countP isStatusRead = fuel := by
  intro fuel
  induction fuel with
  | zero => intro i _; simp [pollStatus]
  | succ t ih =>
    intro i h
    have h0 : stat i = HSMP_STATUS_NOT_READY := h i le_rfl (by omega)
    rw [pollStatus_succ, if_pos h0]
    by_cases ht : t = 0
    · subst ht
      refine ⟨by simp, ?_, ?_⟩ <;>
        simp [List.countP_cons, isSleep, isStatusRead]
    · rw [if_neg ht]
      have ihr := ih (i + 1) (fun j h1 h2 => h j (by omega) (by omega))
      refine ⟨ihr.1, ?_, ?_⟩ <;>
        simp [List.countP_append, List.countP_cons, ihr.2.1, ihr.2.2,
              isSleep, isStatusRead, Nat.add_comm]

theorem pollStatus_first (stat : Nat → Nat) (i fuel : Nat)
    (h : stat i ≠ HSMP_STATUS_NOT_READY) (hf : fuel ≠ 0) :
    pollStatus stat i fuel =
      ([Ev.sleep1ms, Ev.pciRead PciPort.hsmp MBOX_STATUS], some (stat i)) := by
  cases fuel with
  | zero => exact absurd rfl hf
  | succ t => rw [pollStatus_succ, if_neg h]

theorem pollStatus_some_ne (stat : Nat → Nat) :
    ∀ fuel i s, (pollStatus stat i fuel).2 = some s → s ≠ HSMP_STATUS_NOT_READY := by
  intro fuel
  induction fuel with
  | zero => intro i s h; simp [pollStatus] at h
  | succ t ih =>
    intro i s h
    rw [pollStatus_succ] at h
    by_cases h0 : stat i = HSMP_STATUS_NOT_READY
    · rw [if_pos h0] at h
      by_cases ht : t = 0
      · rw [if_pos ht] at h; simp at h
      · rw [if_neg ht] at h; exact ih (i + 1) s h
    · rw [if_neg h0] at h
      simp only [Option.some.injEq] at h
      exact h ▸ h0

theorem countP_zero_of_mem (p : Ev → Bool) (l : List Ev)
    (h : ∀ e ∈ l, p e = false) : l.countP p = 0 := by
  refine List.countP_eq_zero.mpr ?_
  intro e he
  simp [h e he]

/-- The trace of the poll loop contains no event other than sleeps and
status-register reads. -/
theorem pollStatus_countP_zero (stat : Nat → Nat) (fuel i : Nat) (p : Ev → Bool)
    (h1 : p Ev.sleep1ms = false)
    (h2 : p (Ev.pciRead PciPort.hsmp MBOX_STATUS) = false) :
    (pollStatus stat i fuel).1.countP p = 0 := by
  refine countP_zero_of_mem p _ ?_
  intro e he
  rcases pollStatus_mem stat fuel i e he with h | h <;> simp [h, h1, h2]

/-! Helper lemmas about the exchange engine. -/

theorem countP_write_list_zero (p : Ev → Bool)
    (hp : ∀ port a v, p (Ev.pciWrite port a v) = false)
    (n : Nat) (f : Nat → Nat) (g : Nat → Nat) (port : PciPort) :
    ((List.range n).map (fun i => Ev.pciWrite port (f i) (g i))).countP p = 0 := by
  refine countP_zero_of_mem p _ ?_
  intro e he
  simp only [List.mem_map, List.mem_range] at he
  obtain ⟨i, _, rfl⟩ := he
  exact hp port (f i) (g i)

/-- A timed-out exchange: return -1, errno ENOTSUP, disabled flag set,
trace of exactly MBOX_TIMEOUT sleeps and status reads and no other kind
of event. -/
theorem core_timeout (hw : Mbox) (proto_ver : Nat) (msg : HsmpMessage)
    (h : ∀ j, j < MBOX_TIMEOUT → hw.status j = HSMP_STATUS_NOT_READY) :
    (hsmp_send_message_core hw proto_ver msg).ret = -1 ∧
    (hsmp_send_message_core hw proto_ver msg).errno = some Errno.ENOTSUP ∧
    (hsmp_send_message_core hw proto_ver msg).setDisabled = true ∧
    (hsmp_send_message_core hw proto_ver msg).trace.countP isSleep = MBOX_TIMEOUT ∧
    (hsmp_send_message_core hw proto_ver msg).trace.countP isStatusRead = MBOX_TIMEOUT ∧
    (∀ p : Ev → Bool, p Ev.sleep1ms = false →
      p (Ev.pciRead PciPort.hsmp MBOX_STATUS) = false →
      (∀ port a v, p (Ev.pciWrite port a v) = false) →
      (hsmp_send_message_core hw proto_ver msg).trace.countP p = 0) := by
  have hp := pollStatus_timeout hw.status MBOX_TIMEOUT 0
    (fun j h1 h2 => h j (by omega))
  unfold hsmp_send_message_core
  rw [hp.1]
  refine ⟨rfl, rfl, rfl, ?_, ?_, ?_⟩
  · simp [corePrefix, List.countP_append, List.countP_cons, isSleep, hp.2.1,
      countP_write_list_zero isSleep (fun _ _ _ => rfl)]
  · simp [corePrefix, List.countP_append, List.countP_cons, isStatusRead, hp.2.2,
      countP_write_list_zero isStatusRead (fun _ _ _ => rfl)]
  · intro p h1 h2 h3
    simp [corePrefix, List.countP_append, List.countP_cons, h1, h3,
      countP_write_list_zero p h3,
      pollStatus_countP_zero hw.status MBOX_TIMEOUT 0 p h1 h2]

/-- hsmp_send_message on an exchange that times out: EINVAL-free failure
with -1/ENOTSUP, the disabled flag set, exactly MBOX_TIMEOUT poll
iterations, one lock acquisition and one release, the release being the
last event before returning. -/
theorem send_timeout (env : Env) (st : LibState) (socket_id : Int) (msg : HsmpMessage)
    (hdev : (socket_id_to_dev st socket_id).isSome = true)
    (hlock : env.lock_ok = true)
    (h : ∀ j, j < MBOX_TIMEOUT →
      (env.exchanges st.xcount).status j = HSMP_STATUS_NOT_READY) :
    (hsmp_send_message env st socket_id msg).ret = -1 ∧
    (hsmp_send_message env st socket_id msg).errno = some Errno.ENOTSUP ∧
    (hsmp_send_message env st socket_id msg).st =
      { st with hsmp_disabled := true, xcount := st.xcount + 1 } ∧
    (hsmp_send_message env st socket_id msg).trace.countP isSleep = MBOX_TIMEOUT ∧
    (hsmp_send_message env st socket_id msg).trace.countP isStatusRead = MBOX_TIMEOUT ∧
    (hsmp_send_message env st socket_id msg).trace.countP isLockAcq = 1 ∧
    (hsmp_send_message env st socket_id msg).trace.countP isLockRel = 1 ∧
    (hsmp_send_message env st socket_id msg).trace.getLast? = some Ev.lockRelease := by
  obtain ⟨d, hd⟩ := Option.isSome_iff_exists.mp hdev
  have hc := core_timeout (env.exchanges st.xcount) st.hsmp_proto_ver msg h
  unfold hsmp_send_message
  rw [hd]
  simp only [hlock, not_true, if_neg, ite_false, Bool.not_eq_true]
  refine ⟨hc.1, hc.2.1, ?_, ?_, ?_, ?_, ?_, ?_⟩
  · rw [hc.2.2.1]; simp
  · simp [List.countP_append, List.countP_cons, isSleep, hc.2.2.2.1]
  · simp [List.countP_append, List.countP_cons, isStatusRead, hc.2.2.2.2.1]
  · have := hc.2.2.2.2.2 isLockAcq rfl rfl (fun _ _ _ => rfl)
    simp [List.countP_append, List.countP_cons, isLockAcq, this]
  · have := hc.2.2.2.2.2 isLockRel rfl rfl (fun _ _ _ => rfl)
    simp [List.countP_append, List.countP_cons, isLockRel, this]
  · show ((Ev.lockAcquire ::
        (hsmp_send_message_core (env.exchanges st.xcount) st.hsmp_proto_ver msg).trace) ++
        [Ev.lockRelease]).getLast? = some Ev.lockRelease
    exact List.getLast?_concat _

/-- hsmp_send_message never changes any state component other than the
disabled flag and the exchange counter. -/
theorem send_frame (env : Env) (st : LibState) (socket_id : Int) (msg : HsmpMessage) :
    (hsmp_send_message env st socket_id msg).st.nbios = st.nbios ∧
    (hsmp_send_message env st socket_id msg).st.cpus = st.cpus ∧
    (hsmp_send_message env st socket_id msg).st.hsmp_proto_ver = st.hsmp_proto_ver ∧
    (hsmp_send_message env st socket_id msg).st.inited = st.inited ∧
    (hsmp_send_message env st socket_id msg).st.pacc = st.pacc ∧
    (hsmp_send_message env st socket_id msg).st.smu_firmware = st.smu_firmware ∧
    (hsmp_send_message env st socket_id msg).st.x86_family = st.x86_family := by
  unfold hsmp_send_message
  rcases hdev : socket_id_to_dev st socket_id with _ | d
  · simp
  · by_cases hl : env.lock_ok <;> simp [hl]

/-- Once set, the disabled flag survives any hsmp_send_message call. -/
theorem send_disabled_monotone (env : Env) (st : LibState) (socket_id : Int)
    (msg : HsmpMessage) (h : st.hsmp_disabled = true) :
    (hsmp_send_message env st socket_id msg).st.hsmp_disabled = true := by
  unfold hsmp_send_message
  rcases hdev : socket_id_to_dev st socket_id with _ | d
  · simpa using h
  · by_cases hl : env.lock_ok <;> simp [hl, h]

/-- Dispatch equation for a timed-out poll. -/
theorem core_eq_none (hw : Mbox) (proto_ver : Nat) (msg : HsmpMessage)
    (hp : (pollStatus hw.status 0 MBOX_TIMEOUT).2 = none) :
    hsmp_send_message_core hw proto_ver msg =
      ⟨-1, some Errno.ENOTSUP, true, [], corePrefix hw msg⟩ := by
  unfold hsmp_send_message_core
  rw [hp]

/-- Dispatch equation for a poll that observed status `s`. -/
theorem core_eq_some (hw : Mbox) (proto_ver : Nat) (msg : HsmpMessage) (s : Nat)
    (hp : (pollStatus hw.status 0 MBOX_TIMEOUT).2 = some s) :
    hsmp_send_message_core hw proto_ver msg =
      if s = HSMP_ERR_INVALID_MSG_ID ∧ msg_id_supported proto_ver msg.msg_num = true then
        ⟨-1, some Errno.ENOTSUP, false, [], corePrefix hw msg⟩
      else if s ≠ HSMP_STATUS_OK then
        ⟨(s : Int), none, false, [], corePrefix hw msg⟩
      else
        ⟨0, none, false, (List.range msg.response_sz).map hw.resp,
         corePrefix hw msg ++ coreRespTrace msg⟩ := by
  unfold hsmp_send_message_core
  rw [hp]

/-- A successful hsmp_send_message returns the exchange's data words and
advances only the exchange counter. -/
theorem send_success (env : Env) (st : LibState) (socket_id : Int) (msg : HsmpMessage)
    (h : (hsmp_send_message env st socket_id msg).ret = 0) :
    (hsmp_send_message env st socket_id msg).st = { st with xcount := st.xcount + 1 } ∧
    (hsmp_send_message env st socket_id msg).response =
      (List.range msg.response_sz).map (env.exchanges st.xcount).resp := by
  unfold hsmp_send_message at h ⊢
  rcases hdev : socket_id_to_dev st socket_id with _ | d
  · rw [hdev] at h; simp at h
  · rw [hdev] at h
    by_cases hl : env.lock_ok
    · simp only [hl, not_true_eq_false, if_false] at h ⊢
      rcases hpoll : (pollStatus (env.exchanges st.xcount).status 0 MBOX_TIMEOUT).2 with _ | s
      · rw [core_eq_none _ _ _ hpoll] at h; simp at h
      · rw [core_eq_some _ _ _ _ hpoll] at h ⊢
        by_cases h1 : s = HSMP_ERR_INVALID_MSG_ID ∧
            msg_id_supported st.hsmp_proto_ver msg.msg_num = true
        · rw [if_pos h1] at h; simp at h
        · rw [if_neg h1] at h ⊢
          by_cases h2 : s ≠ HSMP_STATUS_OK
          · rw [if_pos h2] at h
            simp only at h
            exact absurd (by exact_mod_cast h)
              (pollStatus_some_ne (env.exchanges st.xcount).status MBOX_TIMEOUT 0 s hpoll)
          · rw [if_neg h2]
            simp
    · simp [hl] at h

/-! Frame lemmas for the initialization pipeline. -/

theorem gsi_st (env : Env) (st : LibState) :
    (get_system_info env st).st = { st with x86_family := cpuid_family env } := by
  unfold get_system_info
  split <;> rfl

theorem gsi_trace (env : Env) (st : LibState) :
    (get_system_info env st).trace = [] := by
  unfold get_system_info
  split <;> rfl

theorem setup_frame (env : Env) (st : LibState) :
    (hsmp_setup_nbios env st).st.cpus = st.cpus ∧
    (hsmp_setup_nbios env st).st.xcount = st.xcount ∧
    (hsmp_setup_nbios env st).st.inited = st.inited ∧
    (hsmp_setup_nbios env st).st.hsmp_disabled = st.hsmp_disabled ∧
    (hsmp_setup_nbios env st).st.hsmp_proto_ver = st.hsmp_proto_ver ∧
    (hsmp_setup_nbios env st).st.x86_family = st.x86_family ∧
    (hsmp_setup_nbios env st).st.smu_firmware = st.smu_firmware := by
  unfold hsmp_setup_nbios nbioSetupError hsmp_cleanup_nbios_st
  dsimp only
  split
  · exact ⟨rfl, rfl, rfl, rfl, rfl, rfl, rfl⟩
  · split
    · exact ⟨rfl, rfl, rfl, rfl, rfl, rfl, rfl⟩
    · split
      · exact ⟨rfl, rfl, rfl, rfl, rfl, rfl, rfl⟩
      · split <;> exact ⟨rfl, rfl, rfl, rfl, rfl, rfl, rfl⟩

theorem cpu_data_frame (env : Env) (st : LibState) :
    (hsmp_get_cpu_data env st).st.nbios = st.nbios ∧
    (hsmp_get_cpu_data env st).st.xcount = st.xcount ∧
    (hsmp_get_cpu_data env st).st.inited = st.inited ∧
    (hsmp_get_cpu_data env st).st.hsmp_disabled = st.hsmp_disabled ∧
    (hsmp_get_cpu_data env st).st.hsmp_proto_ver = st.hsmp_proto_ver ∧
    (hsmp_get_cpu_data env st).st.pacc = st.pacc := by
  unfold hsmp_get_cpu_data
  cases env.cpuinfo <;> exact ⟨rfl, rfl, rfl, rfl, rfl, rfl⟩

theorem cpu_data_ret (env : Env) (st : LibState) (h : env.cpuinfo.isSome = true) :
    (hsmp_get_cpu_data env st).ret = 0 := by
  unfold hsmp_get_cpu_data
  obtain ⟨recs, hr⟩ := Option.isSome_iff_exists.mp h
  rw [hr]

/-! Helper lemmas for the capability gate. -/

theorem enter_disabled (env : Env) (st : LibState) (msg_id : Nat)
    (heuid : env.euid = 0) (hdis : st.hsmp_disabled = true) :
    hsmp_enter env st msg_id = ⟨-1, some Errno.ENOTSUP, st, [], []⟩ := by
  unfold hsmp_enter
  rw [if_neg (by simp [heuid]), if_pos hdis]

theorem enter_ready (env : Env) (st : LibState) (msg_id : Nat)
    (heuid : env.euid = 0) (hdis : st.hsmp_disabled = false)
    (hini : st.inited = true)
    (hsup : msg_id_supported st.hsmp_proto_ver msg_id = true) :
    hsmp_enter env st msg_id = ⟨0, none, st, [], []⟩ := by
  unfold hsmp_enter
  rw [if_neg (by simp [heuid]), if_neg (by simp [hdis])]
  simp [hini, hsup]

theorem enter_unsupported (env : Env) (st : LibState) (msg_id : Nat)
    (heuid : env.euid = 0) (hdis : st.hsmp_disabled = false)
    (hini : st.inited = true)
    (hsup : msg_id_supported st.hsmp_proto_ver msg_id = false) :
    hsmp_enter env st msg_id = ⟨-1, some Errno.ENOTSUP, st, [], []⟩ := by
  unfold hsmp_enter
  rw [if_neg (by simp [heuid]), if_neg (by simp [hdis])]
  simp [hini, hsup]

/-- With the sticky disabled flag set, a public operation returns
-1/ENOTSUP at once: state unchanged, empty trace (no bus scan, no
CPU-table load, no lock, no register access). -/
theorem disabled_short_circuit (env : Env) (st : LibState) (socket_id : Int)
    (power_mw_null : Bool) (heuid : env.euid = 0) (hdis : st.hsmp_disabled = true) :
    hsmp_socket_power env st socket_id power_mw_null =
      ⟨-1, some Errno.ENOTSUP, st, [], []⟩ := by
  unfold hsmp_socket_power
  rw [enter_disabled env st _ heuid hdis]
  dsimp only
  rw [if_pos (by decide : (-1 : Int) ≠ 0)]

theorem corePrefix_countP (hw : Mbox) (msg : HsmpMessage) (p : Ev → Bool)
    (h1 : p Ev.sleep1ms = false)
    (h2 : p (Ev.pciRead PciPort.hsmp MBOX_STATUS) = false)
    (h3 : ∀ port a v, p (Ev.pciWrite port a v) = false) :
    (corePrefix hw msg).countP p = 0 := by
  simp [corePrefix, List.countP_append, List.countP_cons, h3,
    countP_write_list_zero p h3,
    pollStatus_countP_zero hw.status MBOX_TIMEOUT 0 p h1 h2]

/-! Claim theorems. -/

/-- C3: for every exchange in which each status-register poll (one poll
per one-millisecond sleep, budget of 500 iterations) reads the not-ready
sentinel, the exchange returns the timeout error condition (-1, errno
ENOTSUP) after exactly 500 poll iterations (500 sleeps and 500 status
reads), and the cross-process exclusion lock — acquired exactly once — is
released before the call returns (the release is the final event of the
call). -/
theorem c3_poll_timeout_releases_lock (env : Env) (st : LibState) (socket_id : Int)
    (msg : HsmpMessage)
    (hdev : (socket_id_to_dev st socket_id).isSome = true)
    (hlock : env.lock_ok = true)
    (hstat : ∀ j, j < MBOX_TIMEOUT →
      (env.exchanges st.xcount).status j = HSMP_STATUS_NOT_READY) :
    (hsmp_send_message env st socket_id msg).ret = -1 ∧
    (hsmp_send_message env st socket_id msg).errno = some Errno.ENOTSUP ∧
    (hsmp_send_message env st socket_id msg).trace.countP isSleep = 500 ∧
    (hsmp_send_message env st socket_id msg).trace.countP isStatusRead = 500 ∧
    (hsmp_send_message env st socket_id msg).trace.countP isLockAcq = 1 ∧
    (hsmp_send_message env st socket_id msg).trace.countP isLockRel = 1 ∧
    (hsmp_send_message env st socket_id msg).trace.getLast? = some Ev.lockRelease := by
  have h := send_timeout env st socket_id msg hdev hlock hstat
  exact ⟨h.1, h.2.1, h.2.2.2.1, h.2.2.2.2.1, h.2.2.2.2.2.1, h.2.2.2.2.2.2.1,
    h.2.2.2.2.2.2.2⟩

theorem c3_poll_timeout_releases_lock_witness :
    (socket_id_to_dev readyState 0).isSome = true ∧
    envDead.lock_ok = true ∧
    (hsmp_send_message envDead readyState 0 powerMsg).ret = -1 ∧
    (hsmp_send_message envDead readyState 0 powerMsg).errno = some Errno.ENOTSUP ∧
    (hsmp_send_message envDead readyState 0 powerMsg).trace.countP isSleep = 500 ∧
    (hsmp_send_message envDead readyState 0 powerMsg).trace.getLast? =
      some Ev.lockRelease := by
  have h := c3_poll_timeout_releases_lock envDead readyState 0 powerMsg
    (by decide) rfl (fun j _ => rfl)
  exact ⟨by decide, rfl, h.1, h.2.1, h.2.2.1, h.2.2.2.2.2.2⟩

/-- C9: for every exchange whose expected response count is 0, the engine
performs no data-register read at all — every register read in its trace
is a status-register read — in particular none after the status register
reads OK. -/
theorem c9_zero_response_no_data_read (hw : Mbox) (proto_ver : Nat) (msg : HsmpMessage)
    (h : msg.response_sz = 0) :
    (hsmp_send_message_core hw proto_ver msg).trace.countP isNonStatusRead = 0 := by
  have hpre := corePrefix_countP hw msg isNonStatusRead rfl (by decide)
    (fun _ _ _ => rfl)
  rcases hpoll : (pollStatus hw.status 0 MBOX_TIMEOUT).2 with _ | s
  · rw [core_eq_none hw proto_ver msg hpoll]
    exact hpre
  · rw [core_eq_some hw proto_ver msg s hpoll]
    split_ifs
    · exact hpre
    · exact hpre
    · simp [coreRespTrace, h, List.countP_append, hpre]

theorem c9_zero_response_no_data_read_witness :
    (⟨HSMP_SET_SOCKET_POWER_LIMIT, 1, 0, [100]⟩ : HsmpMessage).response_sz = 0 ∧
    (hsmp_send_message_core (okMbox 2) 3
      ⟨HSMP_SET_SOCKET_POWER_LIMIT, 1, 0, [100]⟩).trace.countP isNonStatusRead = 0 :=
  ⟨rfl, c9_zero_response_no_data_read (okMbox 2) 3 _ rfl⟩

/-- C5 counterexample: the protocol-inconsistency outcome (firmware
answers the reserved invalid-message-id status 0xFE for a message the
capability gate considers supported) and the capability gate's own
not-supported rejection produce exactly the same observables — return -1
with errno ENOTSUP — so the two conditions are not distinguishable by the
caller from the returned code and errno. -/
theorem c5_indistinguishable_cex :
    (hsmp_send_message_core (statMbox HSMP_ERR_INVALID_MSG_ID) 1 powerMsg).ret = -1 ∧
    (hsmp_send_message_core (statMbox HSMP_ERR_INVALID_MSG_ID) 1 powerMsg).errno =
      some Errno.ENOTSUP ∧
    (hsmp_enter envGood { readyState with hsmp_proto_ver := 1 }
      HSMP_SET_NBIO_DPM_LEVEL).ret = -1 ∧
    (hsmp_enter envGood { readyState with hsmp_proto_ver := 1 }
      HSMP_SET_NBIO_DPM_LEVEL).errno = some Errno.ENOTSUP ∧
    (hsmp_send_message_core (statMbox HSMP_ERR_INVALID_MSG_ID) 1 powerMsg).ret =
      (hsmp_enter envGood { readyState with hsmp_proto_ver := 1 }
        HSMP_SET_NBIO_DPM_LEVEL).ret ∧
    (hsmp_send_message_core (statMbox HSMP_ERR_INVALID_MSG_ID) 1 powerMsg).errno =
      (hsmp_enter envGood { readyState with hsmp_proto_ver := 1 }
        HSMP_SET_NBIO_DPM_LEVEL).errno := by
  decide

/-- C5 (amended): when an exchange completes with the reserved
invalid-message-id status for a message the capability gate considers
supported, the call returns -1 with errno ENOTSUP — the same observables
as the capability gate's not-supported rejection, so the two conditions
are not distinguishable by return code and errno (they are only
distinguishable from the generic non-OK status propagation, which returns
the positive status value itself). -/
theorem c5_invalid_msg_id_like_unsupported (hw : Mbox) (proto_ver : Nat)
    (msg : HsmpMessage)
    (h1 : hw.status 0 = HSMP_ERR_INVALID_MSG_ID)
    (hsup : msg_id_supported proto_ver msg.msg_num = true) :
    (hsmp_send_message_core hw proto_ver msg).ret = -1 ∧
    (hsmp_send_message_core hw proto_ver msg).errno = some Errno.ENOTSUP ∧
    (∀ env st msg_id, env.euid = 0 → st.hsmp_disabled = false → st.inited = true →
      msg_id_supported st.hsmp_proto_ver msg_id = false →
      (hsmp_enter env st msg_id).ret = -1 ∧
      (hsmp_enter env st msg_id).errno = some Errno.ENOTSUP) := by
  have hne : hw.status 0 ≠ HSMP_STATUS_NOT_READY := by
    rw [h1]; decide
  have hfirst := pollStatus_first hw.status 0 MBOX_TIMEOUT hne (by decide)
  have hpoll : (pollStatus hw.status 0 MBOX_TIMEOUT).2 = some (hw.status 0) := by
    rw [hfirst]
  rw [core_eq_some hw proto_ver msg (hw.status 0) hpoll, if_pos ⟨h1, hsup⟩]
  refine ⟨rfl, rfl, ?_⟩
  intro env st msg_id heuid hdis hini hunsup
  rw [enter_unsupported env st msg_id heuid hdis hini hunsup]
  exact ⟨rfl, rfl⟩

theorem c5_invalid_msg_id_like_unsupported_witness :
    (statMbox HSMP_ERR_INVALID_MSG_ID).status 0 = HSMP_ERR_INVALID_MSG_ID ∧
    msg_id_supported 1 powerMsg.msg_num = true ∧
    (hsmp_send_message_core (statMbox HSMP_ERR_INVALID_MSG_ID) 1 powerMsg).ret = -1 ∧
    (hsmp_send_message_core (statMbox HSMP_ERR_INVALID_MSG_ID) 1 powerMsg).errno =
      some Errno.ENOTSUP := by
  have h := c5_invalid_msg_id_like_unsupported (statMbox HSMP_ERR_INVALID_MSG_ID) 1
    powerMsg rfl (by decide)
  exact ⟨rfl, by decide, h.1, h.2.1⟩

/-- C8 (code bug): the bound check in cpu_apicid and cpu_socket_id is
`cpu > MAX_CPUS`, so cpu = 256 and every negative cpu pass the check and
index hsmp_data.cpus outside the 256-entry table (modelled as `none`, an
out-of-bounds access), instead of failing with -1/EINVAL as the claim
states; cpu values above 256 and in-range unpopulated entries do fail
with -1/EINVAL. -/
theorem c8_cpu_lookup_out_of_bounds :
    cpu_apicid readyState 256 = none ∧
    cpu_socket_id readyState 256 = none ∧
    cpu_apicid readyState (-1) = none ∧
    cpu_socket_id readyState (-1) = none ∧
    cpu_apicid readyState 300 = some (-1, some Errno.EINVAL) ∧
    cpu_socket_id readyState 300 = some (-1, some Errno.EINVAL) ∧
    cpu_apicid readyState 5 = some (-1, some Errno.EINVAL) ∧
    cpu_socket_id readyState 5 = some (-1, some Errno.EINVAL) := by
  decide

/-- C6 counterexample: requesting socket_index = 2 on a 1-socket system
does fail with -1/EINVAL, but when the call triggers the lazy
initialization, the discovery and probe perform lock acquisitions (three
of them) and hardware register accesses before the argument is validated
— contradicting "detected ... before any hardware register access is
attempted" and "before the exclusion lock is acquired". -/
theorem c6_validation_after_lazy_init_cex :
    (hsmp_socket_power envGood initState 2 false).ret = -1 ∧
    (hsmp_socket_power envGood initState 2 false).errno = some Errno.EINVAL ∧
    (hsmp_socket_power envGood initState 2 false).trace.countP isLockAcq = 3 ∧
    0 < (hsmp_socket_power envGood initState 2 false).trace.countP isPciAccess := by
  decide

/-- C6 (amended): once the library is initialized, an out-of-range socket
id (in particular socket 2 on a 1-socket system) and a null output
pointer each fail with -1, errno EINVAL, an unchanged state and an empty
effect trace — no lock acquisition and no register access; but a call
that triggers lazy initialization performs the initialization's register
accesses and lock acquisitions before the argument check. -/
theorem c6_einval_before_lock_when_inited (env : Env) (st : LibState) (socket_id : Int)
    (heuid : env.euid = 0) (hini : st.inited = true) (hdis : st.hsmp_disabled = false)
    (hsup : msg_id_supported st.hsmp_proto_ver HSMP_GET_SOCKET_POWER = true) :
    (socket_id_to_dev st socket_id = none →
      hsmp_socket_power env st socket_id false = ⟨-1, some Errno.EINVAL, st, [], []⟩) ∧
    hsmp_socket_power env st socket_id true = ⟨-1, some Errno.EINVAL, st, [], []⟩ := by
  constructor
  · intro hdev
    unfold hsmp_socket_power
    rw [enter_ready env st HSMP_GET_SOCKET_POWER heuid hdis hini hsup]
    simp [hsmp_send_message, hdev]
  · unfold hsmp_socket_power
    rw [enter_ready env st HSMP_GET_SOCKET_POWER heuid hdis hini hsup]
    simp

theorem c6_einval_before_lock_when_inited_witness :
    envGood.euid = 0 ∧ readyState.inited = true ∧
    readyState.hsmp_disabled = false ∧
    msg_id_supported readyState.hsmp_proto_ver HSMP_GET_SOCKET_POWER = true ∧
    socket_id_to_dev readyState 2 = none ∧
    hsmp_socket_power envGood readyState 2 false =
      ⟨-1, some Errno.EINVAL, readyState, [], []⟩ ∧
    hsmp_socket_power envGood readyState 2 true =
      ⟨-1, some Errno.EINVAL, readyState, [], []⟩ := by
  have h := c6_einval_before_lock_when_inited envGood readyState 2 rfl rfl rfl
    (by decide)
  exact ⟨rfl, rfl, rfl, by decide, by decide, h.1 (by decide), h.2⟩

/-- C10: a poll-loop timeout in a post-initialization public operation
sets the process-wide disabled flag; the failing call returns -1/ENOTSUP;
and thereafter every public operation (under any environment, for any
arguments, still as root) returns -1/ENOTSUP immediately with an empty
effect trace — no register access — and leaves the state (the flag
included) unchanged, so the flag is never cleared. -/
theorem c10_post_init_timeout_sticky (env : Env) (st : LibState) (socket_id : Int)
    (heuid : env.euid = 0) (hini : st.inited = true) (hdis : st.hsmp_disabled = false)
    (hsup : msg_id_supported st.hsmp_proto_ver HSMP_GET_SOCKET_POWER = true)
    (hdev : (socket_id_to_dev st socket_id).isSome = true)
    (hlock : env.lock_ok = true)
    (hstat : ∀ j, j < MBOX_TIMEOUT →
      (env.exchanges st.xcount).status j = HSMP_STATUS_NOT_READY) :
    (hsmp_socket_power env st socket_id false).ret = -1 ∧
    (hsmp_socket_power env st socket_id false).errno = some Errno.ENOTSUP ∧
    (hsmp_socket_power env st socket_id false).st.hsmp_disabled = true ∧
    (∀ env2 sock2 np2, env2.euid = 0 →
      hsmp_socket_power env2 (hsmp_socket_power env st socket_id false).st sock2 np2 =
        ⟨-1, some Errno.ENOTSUP, (hsmp_socket_power env st socket_id false).st, [], []⟩) := by
  have hs := send_timeout env st socket_id powerMsg hdev hlock hstat
  have hpow : hsmp_socket_power env st socket_id false =
      ⟨(hsmp_send_message env st socket_id powerMsg).ret,
       (hsmp_send_message env st socket_id powerMsg).errno,
       (hsmp_send_message env st socket_id powerMsg).st, [],
       [] ++ (hsmp_send_message env st socket_id powerMsg).trace⟩ := by
    unfold hsmp_socket_power
    rw [enter_ready env st HSMP_GET_SOCKET_POWER heuid hdis hini hsup]
    dsimp only
    rw [if_neg (by decide : ¬((0 : Int) ≠ 0)), if_neg (by decide : ¬(false = true)),
        if_pos (by rw [hs.1]; decide)]
  have hflag : (hsmp_socket_power env st socket_id false).st.hsmp_disabled = true := by
    rw [hpow, hs.2.2.1]
  refine ⟨by rw [hpow]; exact hs.1, by rw [hpow]; exact hs.2.1, hflag, ?_⟩
  intro env2 sock2 np2 he2
  exact disabled_short_circuit env2 _ sock2 np2 he2 hflag

theorem c10_post_init_timeout_sticky_witness :
    envDead.euid = 0 ∧ readyState.inited = true ∧
    readyState.hsmp_disabled = false ∧
    (socket_id_to_dev readyState 0).isSome = true ∧
    (hsmp_socket_power envDead readyState 0 false).ret = -1 ∧
    (hsmp_socket_power envDead readyState 0 false).st.hsmp_disabled = true ∧
    hsmp_socket_power envGood (hsmp_socket_power envDead readyState 0 false).st 0 false =
      ⟨-1, some Errno.ENOTSUP, (hsmp_socket_power envDead readyState 0 false).st, [], []⟩ := by
  have h := c10_post_init_timeout_sticky envDead readyState 0 rfl rfl rfl
    (by decide) (by decide) rfl (fun j _ => rfl)
  exact ⟨rfl, rfl, rfl, by decide, h.1, h.2.2.1, h.2.2.2 envGood 0 false rfl⟩

theorem socket_dev_congr (st1 st2 : LibState) (socket_id : Int)
    (h : st1.nbios = st2.nbios) :
    socket_id_to_dev st1 socket_id = socket_id_to_dev st2 socket_id := by
  unfold socket_id_to_dev
  rw [h]

/-- A probe whose first test exchange times out fails with -1/ENOTSUP and
leaves the disabled flag set. -/
theorem probe_first_exchange_timeout (env : Env) (st0 : LibState)
    (hdev : (socket_id_to_dev st0 0).isSome = true)
    (hlock : env.lock_ok = true)
    (hstat : ∀ j, j < MBOX_TIMEOUT →
      (env.exchanges st0.xcount).status j = HSMP_STATUS_NOT_READY) :
    (hsmp_probe env st0).ret = -1 ∧
    (hsmp_probe env st0).errno = some Errno.ENOTSUP ∧
    (hsmp_probe env st0).st.hsmp_disabled = true := by
  obtain ⟨d, hd⟩ := Option.isSome_iff_exists.mp hdev
  have hs := send_timeout env st0 0 testMsg (by rw [hd]; rfl) hlock hstat
  unfold hsmp_probe
  rw [hd]
  dsimp only
  rw [if_pos (by rw [hs.1]; decide)]
  exact ⟨rfl, rfl, by rw [hs.2.2.1]⟩

/-- A lazy initialization whose probe's first exchange times out: the
init call fails with -1/ENOTSUP and the resulting state carries the
sticky disabled flag. -/
theorem init_probe_timeout (env : Env) (st : LibState)
    (hgsi : (get_system_info env st).ret = 0)
    (hsetup : (hsmp_setup_nbios env (get_system_info env st).st).ret = 0)
    (hcpu : env.cpuinfo.isSome = true)
    (hdev : (socket_id_to_dev
      (hsmp_setup_nbios env (get_system_info env st).st).st 0).isSome = true)
    (hlock : env.lock_ok = true)
    (hstat : ∀ j, j < MBOX_TIMEOUT →
      (env.exchanges st.xcount).status j = HSMP_STATUS_NOT_READY) :
    (hsmp_init env st).ret = -1 ∧
    (hsmp_init env st).errno = some Errno.ENOTSUP ∧
    (hsmp_init env st).st.hsmp_disabled = true := by
  have hcd := cpu_data_frame env (hsmp_setup_nbios env (get_system_info env st).st).st
  have hdev2 : (socket_id_to_dev
      (hsmp_get_cpu_data env (hsmp_setup_nbios env (get_system_info env st).st).st).st
      0).isSome = true := by
    rw [socket_dev_congr _ _ 0 hcd.1]
    exact hdev
  have hx : (hsmp_get_cpu_data env
      (hsmp_setup_nbios env (get_system_info env st).st).st).st.xcount = st.xcount := by
    rw [hcd.2.1, (setup_frame env (get_system_info env st).st).2.1, gsi_st]
  have hp := probe_first_exchange_timeout env
    (hsmp_get_cpu_data env (hsmp_setup_nbios env (get_system_info env st).st).st).st
    hdev2 hlock (by rw [hx]; exact hstat)
  unfold hsmp_init
  dsimp only
  rw [if_neg (by simp [hgsi]), if_neg (by simp [hsetup]),
      if_neg (by simp [cpu_data_ret env _ hcpu]), if_pos (by rw [hp.1]; decide)]
  exact ⟨by rw [hp.1], by rw [hp.2.1], by
    show (hsmp_cleanup_nbios_st _).hsmp_disabled = true
    unfold hsmp_cleanup_nbios_st
    exact hp.2.2⟩

theorem enter_init_fail (env : Env) (st : LibState) (msg_id : Nat)
    (heuid : env.euid = 0) (hdis : st.hsmp_disabled = false)
    (hini : st.inited = false) (hret : (hsmp_init env st).ret = -1) :
    hsmp_enter env st msg_id =
      ⟨-1, (hsmp_init env st).errno, (hsmp_init env st).st, [],
       (hsmp_init env st).trace⟩ := by
  unfold hsmp_enter
  rw [if_neg (by simp [heuid]), if_neg (by simp [hdis])]
  dsimp only
  rw [if_pos (show ¬(st.inited = true) by simp [hini])]
  rw [if_pos (show ¬((hsmp_init env st).ret = 0) by rw [hret]; decide)]
  rw [hret]

theorem power_enter_fail (env : Env) (st : LibState) (socket_id : Int) (np : Bool)
    (h : (hsmp_enter env st HSMP_GET_SOCKET_POWER).ret = -1) :
    hsmp_socket_power env st socket_id np =
      ⟨-1, (hsmp_enter env st HSMP_GET_SOCKET_POWER).errno,
       (hsmp_enter env st HSMP_GET_SOCKET_POWER).st, [],
       (hsmp_enter env st HSMP_GET_SOCKET_POWER).trace⟩ := by
  unfold hsmp_socket_power
  dsimp only
  rw [if_pos (by rw [h]; decide)]

/-- C1 counterexample: a probe failure that is not a timeout — the first
test exchange completes with status OK but echoes 5 instead of 2 — makes
the call fail with -1/ENOTSUP, yet the capability state does NOT become
Disabled (the disabled flag stays false, the library stays
uninitialized), and the very next public operation repeats the bus scan
and the probe exchanges and succeeds (return 0), contradicting "stays
Disabled: every subsequent public operation fails immediately ... without
repeating the bus scan". -/
theorem c1_probe_failure_not_sticky_cex :
    (hsmp_socket_power envEchoBad initState 0 false).ret = -1 ∧
    (hsmp_socket_power envEchoBad initState 0 false).errno = some Errno.ENOTSUP ∧
    (hsmp_socket_power envEchoBad initState 0 false).st.hsmp_disabled = false ∧
    (hsmp_socket_power envEchoBad initState 0 false).st.inited = false ∧
    (hsmp_socket_power envEchoBad initState 0 false).trace.countP isBusScan = 1 ∧
    (hsmp_socket_power envEchoBad
      (hsmp_socket_power envEchoBad initState 0 false).st 0 false).ret = 0 ∧
    (hsmp_socket_power envEchoBad
      (hsmp_socket_power envEchoBad initState 0 false).st 0 false).trace.countP
      isBusScan = 1 := by
  decide

/-- C1 (amended): only a poll-timeout probe failure is sticky.  If, during
lazy initialization, the probe's first exchange times out, the triggering
call returns -1/ENOTSUP, the disabled flag is set, and from then on every
public operation (any environment, any arguments, still as root) fails
immediately with -1/ENOTSUP, unchanged state and an empty effect trace —
no bus scan, no CPU-table load, no probe exchange, no lock, no register
access.  (Probe failures that are not timeouts — e.g. an echo mismatch —
also fail the call with -1/ENOTSUP but leave the library uninitialized,
and the next call repeats discovery and probe, as the counterexample
shows.) -/
theorem c1_probe_timeout_sticky_amended (env : Env) (st : LibState) (socket_id : Int)
    (np : Bool)
    (heuid : env.euid = 0) (hdis : st.hsmp_disabled = false)
    (hini : st.inited = false) (hlock : env.lock_ok = true)
    (hgsi : (get_system_info env st).ret = 0)
    (hsetup : (hsmp_setup_nbios env (get_system_info env st).st).ret = 0)
    (hcpu : env.cpuinfo.isSome = true)
    (hdev : (socket_id_to_dev
      (hsmp_setup_nbios env (get_system_info env st).st).st 0).isSome = true)
    (hstat : ∀ j, j < MBOX_TIMEOUT →
      (env.exchanges st.xcount).status j = HSMP_STATUS_NOT_READY) :
    (hsmp_socket_power env st socket_id np).ret = -1 ∧
    (hsmp_socket_power env st socket_id np).errno = some Errno.ENOTSUP ∧
    (hsmp_socket_power env st socket_id np).st.hsmp_disabled = true ∧
    (∀ env2 sock2 np2, env2.euid = 0 →
      hsmp_socket_power env2 (hsmp_socket_power env st socket_id np).st sock2 np2 =
        ⟨-1, some Errno.ENOTSUP, (hsmp_socket_power env st socket_id np).st, [], []⟩) := by
  have hinit := init_probe_timeout env st hgsi hsetup hcpu hdev hlock hstat
  have henter := enter_init_fail env st HSMP_GET_SOCKET_POWER heuid hdis hini hinit.1
  have hpow := power_enter_fail env st socket_id np (by rw [henter])
  have hflag : (hsmp_socket_power env st socket_id np).st.hsmp_disabled = true := by
    rw [hpow, henter]
    exact hinit.2.2
  refine ⟨by rw [hpow], by rw [hpow, henter]; exact hinit.2.1, hflag, ?_⟩
  intro env2 sock2 np2 he2
  exact disabled_short_circuit env2 _ sock2 np2 he2 hflag

theorem c1_probe_timeout_sticky_amended_witness :
    envDead.euid = 0 ∧ initState.hsmp_disabled = false ∧ initState.inited = false ∧
    (get_system_info envDead initState).ret = 0 ∧
    (hsmp_setup_nbios envDead (get_system_info envDead initState).st).ret = 0 ∧
    envDead.cpuinfo.isSome = true ∧
    (hsmp_socket_power envDead initState 0 false).ret = -1 ∧
    (hsmp_socket_power envDead initState 0 false).st.hsmp_disabled = true ∧
    hsmp_socket_power envGood (hsmp_socket_power envDead initState 0 false).st 0 false =
      ⟨-1, some Errno.ENOTSUP, (hsmp_socket_power envDead initState 0 false).st, [], []⟩ := by
  have h := c1_probe_timeout_sticky_amended envDead initState 0 false rfl rfl rfl rfl
    (by decide) (by decide) rfl (by decide) (fun j _ => rfl)
  exact ⟨rfl, rfl, rfl, by decide, by decide, rfl, h.1, h.2.2.1, h.2.2.2 envGood 0 false rfl⟩

/-- C2 counterexample: with firmware reporting interface version 4, the
probe succeeds and the library stores version 4 verbatim — not
min(3, 4) = 3 — and the supported-message set becomes empty instead of
the set bounded by that minimum: message id 4 (GET_SOCKET_POWER) is
rejected with -1/ENOTSUP although the claimed min-negotiation would admit
it. -/
theorem c2_version_not_min_cex :
    (hsmp_socket_power envVer4 initState 0 false).st.inited = true ∧
    (hsmp_socket_power envVer4 initState 0 false).st.hsmp_proto_ver = 4 ∧
    negotiated_version_spec 4 = 3 ∧
    (hsmp_socket_power envVer4 initState 0 false).st.hsmp_proto_ver ≠
      negotiated_version_spec 4 ∧
    msg_id_supported 4 HSMP_GET_SOCKET_POWER = false ∧
    msg_id_supported (negotiated_version_spec 4) HSMP_GET_SOCKET_POWER = true ∧
    (hsmp_socket_power envVer4 initState 0 false).ret = -1 ∧
    (hsmp_socket_power envVer4 initState 0 false).errno = some Errno.ENOTSUP := by
  decide

/-- C2 (amended): after a successful probe the stored protocol version is
exactly the raw version word the service processor reported in the
version-query exchange (no minimum with the library's own maximum is
taken), and the set of supported message ids is non-empty only for
reported versions 1, 2 and 3 (bounded by ids 17, 18 and 20
respectively); for any other reported version no message id is
supported. -/
theorem c2_stored_version_amended (env : Env) (st : LibState)
    (hdev : (socket_id_to_dev st 0).isSome = true)
    (hret : (hsmp_probe env st).ret = 0) :
    (hsmp_probe env st).st.hsmp_proto_ver = (env.exchanges (st.xcount + 2)).resp 0 ∧
    (∀ v msg_id, msg_id_supported v msg_id = true ↔
      ((v = 1 ∧ msg_id ≤ HSMP_GET_C0_PERCENT) ∨
       (v = 2 ∧ msg_id ≤ HSMP_SET_NBIO_DPM_LEVEL) ∨
       (v = 3 ∧ msg_id ≤ HSMP_GET_DDR_BANDWIDTH))) := by
  constructor
  · obtain ⟨d, hd⟩ := Option.isSome_iff_exists.mp hdev
    unfold hsmp_probe at hret ⊢
    rw [hd] at hret ⊢
    dsimp only at hret ⊢
    split at hret
    next h1 => simp at hret
    next h1 =>
    rw [if_neg h1]
    have e1 := send_success env st 0 testMsg (not_ne_iff.mp h1)
    split at hret
    next h2 => simp at hret
    next h2 =>
    rw [if_neg h2]
    split at hret
    next h3 => simp at hret
    next h3 =>
    rw [if_neg h3]
    have e2 := send_success env _ 0 smuVerMsg (not_ne_iff.mp h3)
    split at hret
    next h4 => simp at hret
    next h4 =>
    rw [if_neg h4]
    have e3 := send_success env _ 0 protoVerMsg (not_ne_iff.mp h4)
    have hx : (hsmp_send_message env (hsmp_send_message env st 0 testMsg).st 0
        smuVerMsg).st.xcount = st.xcount + 2 := by
      rw [e2.1]
      show (hsmp_send_message env st 0 testMsg).st.xcount + 1 = st.xcount + 2
      rw [e1.1]
    split at hret
    next hd1 =>
      simp only [e3.2]
      rw [hx]
      rfl
    next d1 hd1 =>
      split at hret
      next h5 => simp at hret
      next h5 =>
      split at hret
      next h6 => simp at hret
      next h6 =>
      rw [if_neg h5, if_neg h6]
      have hf : ∀ s : LibState,
          (hsmp_send_message env s 1 testMsg).st.hsmp_proto_ver = s.hsmp_proto_ver :=
        fun s => (send_frame env s 1 testMsg).2.2.1
      simp only [hf, e3.2]
      rw [hx]
      rfl
  · intro v msg_id
    unfold msg_id_supported
    split_ifs with hv1 hv2 hv3 <;>
      simp_all [HSMP_GET_C0_PERCENT, HSMP_SET_NBIO_DPM_LEVEL, HSMP_GET_DDR_BANDWIDTH]

theorem c2_stored_version_amended_witness :
    (socket_id_to_dev { readyState with xcount := 0 } 0).isSome = true ∧
    (hsmp_probe envGood { readyState with xcount := 0 }).ret = 0 ∧
    (hsmp_probe envGood { readyState with xcount := 0 }).st.hsmp_proto_ver =
      (envGood.exchanges ({ readyState with xcount := 0 }.xcount + 2)).resp 0 ∧
    msg_id_supported 4 HSMP_TEST = false := by
  have h := c2_stored_version_amended envGood { readyState with xcount := 0 }
    (by decide) (by decide)
  refine ⟨by decide, by decide, h.1, ?_⟩
  by_contra hc
  have := (h.2 4 HSMP_TEST).mp (by simpa using hc)
  simp [HSMP_TEST] at this

/-! Helper lemmas for the device scan count (C7). -/

theorem scanMatches_some_length :
    ∀ (l : List (Nat × PciDevInfo)) (acc ms : List (Nat × Nat)),
      scanMatches l acc = some ms →
      ms.length = acc.length + (l.countP (fun p =>
        decide (p.2.vendor_id = PCI_VENDOR_ID_AMD ∧
                p.2.device_id = F17F19_IOHC_DEVID))) := by
  intro l
  induction l with
  | nil =>
    intro acc ms h
    simp [scanMatches] at h
    simp [h]
  | cons hd tl ih =>
    intro acc ms h
    obtain ⟨i, d⟩ := hd
    unfold scanMatches at h
    by_cases hm : d.vendor_id = PCI_VENDOR_ID_AMD ∧ d.device_id = F17F19_IOHC_DEVID
    · rw [if_pos hm] at h
      by_cases hfull : acc.length = MAX_NBIOS
      · rw [if_pos hfull] at h; simp at h
      · rw [if_neg hfull] at h
        have := ih (acc ++ [(i, d.bus)]) ms h
        simp only [List.countP_cons, this, List.length_append, List.length_singleton]
        simp [hm]
        omega
    · rw [if_neg hm] at h
      have := ih acc ms h
      simp only [List.countP_cons, this]
      simp [hm]

theorem scanMatches_some_le :
    ∀ (l : List (Nat × PciDevInfo)) (acc ms : List (Nat × Nat)),
      acc.length ≤ MAX_NBIOS → scanMatches l acc = some ms →
      ms.length ≤ MAX_NBIOS := by
  intro l
  induction l with
  | nil =>
    intro acc ms hle h
    simp [scanMatches] at h
    simpa [← h] using hle
  | cons hd tl ih =>
    intro acc ms hle h
    obtain ⟨i, d⟩ := hd
    unfold scanMatches at h
    by_cases hm : d.vendor_id = PCI_VENDOR_ID_AMD ∧ d.device_id = F17F19_IOHC_DEVID
    · rw [if_pos hm] at h
      by_cases hfull : acc.length = MAX_NBIOS
      · rw [if_pos hfull] at h; simp at h
      · rw [if_neg hfull] at h
        refine ih (acc ++ [(i, d.bus)]) ms ?_ h
        have : acc.length < MAX_NBIOS := lt_of_le_of_ne hle hfull
        simp
        omega
    · rw [if_neg hm] at h
      exact ih acc ms hle h

theorem countP_enum (env : Env) :
    env.devices.enum.countP (fun p =>
      decide (p.2.vendor_id = PCI_VENDOR_ID_AMD ∧
              p.2.device_id = F17F19_IOHC_DEVID)) = matchCount env := by
  have h := List.countP_map
    (p := fun d : PciDevInfo => decide (d.vendor_id = PCI_VENDOR_ID_AMD ∧
      d.device_id = F17F19_IOHC_DEVID))
    (f := Prod.snd) (l := env.devices.enum)
  rw [List.enum_map_snd] at h
  unfold matchCount
  rw [h]
  rfl

/-- C7: discovery with any matching-device count other than 4 or 8 fails
with -1 and errno ENOTSUP (the discovery error), the partially acquired
bus-access resources are torn down (the PCI access handle is released),
and the table left behind is the cleared table — no partial access-point
table is exposed. -/
theorem c7_bad_device_count_fails (env : Env) (st : LibState)
    (h4 : matchCount env ≠ 4) (h8 : matchCount env ≠ 8) :
    (hsmp_setup_nbios env st).ret = -1 ∧
    (hsmp_setup_nbios env st).errno = some Errno.ENOTSUP ∧
    (hsmp_setup_nbios env st).st.nbios = clearedTable ∧
    (hsmp_setup_nbios env st).st.pacc = false := by
  unfold hsmp_setup_nbios
  dsimp only
  split
  · exact ⟨rfl, rfl, rfl, rfl⟩
  · split
    · exact ⟨rfl, rfl, rfl, rfl⟩
    next ms hms =>
      have hlen : ms.length = matchCount env := by
        have h0 := scanMatches_some_length env.devices.enum [] ms hms
        simp only [List.length_nil, Nat.zero_add] at h0
        rw [h0]
        exact countP_enum env
      have hle : ms.length ≤ MAX_NBIOS :=
        scanMatches_some_le env.devices.enum [] ms (by simp [MAX_NBIOS]) hms
      rw [if_pos ?hcond]
      · exact ⟨rfl, rfl, rfl, rfl⟩
      case hcond =>
        rw [hlen] at hle ⊢
        by_contra hc
        push_neg at hc
        obtain ⟨hz, hmod⟩ := hc
        have : matchCount env % 4 = 0 := by simpa [MAX_NBIOS] using hmod
        simp [MAX_NBIOS] at hle
        omega

theorem c7_bad_device_count_fails_witness :
    matchCount envFiveDevs = 5 ∧
    (hsmp_setup_nbios envFiveDevs initState).ret = -1 ∧
    (hsmp_setup_nbios envFiveDevs initState).errno = some Errno.ENOTSUP ∧
    (hsmp_setup_nbios envFiveDevs initState).st.nbios = clearedTable ∧
    (hsmp_setup_nbios envFiveDevs initState).st.pacc = false := by
  have h := c7_bad_device_count_fails envFiveDevs initState (by decide) (by decide)
  exact ⟨by decide, h.1, h.2.1, h.2.2.1, h.2.2.2⟩

/-! Correctness of the bus_base sort (C4). -/

theorem innerPass_length (cur : Nat × Nat) (l : List (Nat × Nat)) :
    (innerPass cur l).2.length = l.length := by
  induction l generalizing cur with
  | nil => rfl
  | cons x xs ih =>
    simp only [innerPass]
    split <;> simp [ih]

theorem innerPass_perm (cur : Nat × Nat) (l : List (Nat × Nat)) :
    List.Perm ((innerPass cur l).1 :: (innerPass cur l).2) (cur :: l) := by
  induction l generalizing cur with
  | nil => exact List.Perm.refl _
  | cons x xs ih =>
    simp only [innerPass]
    split
    · dsimp only
      exact (List.Perm.swap cur (innerPass x xs).1 (innerPass x xs).2).trans
        ((ih x).cons cur)
    · dsimp only
      exact ((List.Perm.swap x (innerPass cur xs).1 (innerPass cur xs).2).trans
        ((ih cur).cons x)).trans (List.Perm.swap cur x xs)

theorem innerPass_min (cur : Nat × Nat) (l : List (Nat × Nat)) :
    (innerPass cur l).1.2 ≤ cur.2 ∧
    ∀ y ∈ (innerPass cur l).2, (innerPass cur l).1.2 ≤ y.2 := by
  induction l generalizing cur with
  | nil => exact ⟨le_rfl, by simp [innerPass]⟩
  | cons x xs ih =>
    simp only [innerPass]
    split
    next h =>
      dsimp only
      refine ⟨le_trans (ih x).1 (le_of_lt h), ?_⟩
      intro y hy
      rcases List.mem_cons.mp hy with rfl | hy
      · exact le_trans (ih x).1 (le_of_lt h)
      · exact (ih x).2 y hy
    next h =>
      dsimp only
      push_neg at h
      refine ⟨(ih cur).1, ?_⟩
      intro y hy
      rcases List.mem_cons.mp hy with rfl | hy
      · exact le_trans (ih cur).1 h
      · exact (ih cur).2 y hy

theorem sortGo_perm : ∀ (fuel : Nat) (l : List (Nat × Nat)),
    List.Perm (sortGo fuel l) l := by
  intro fuel
  induction fuel with
  | zero => intro l; exact List.Perm.refl l
  | succ t ih =>
    intro l
    cases l with
    | nil => exact List.Perm.refl _
    | cons cur rest =>
      show List.Perm ((innerPass cur rest).1 :: sortGo t (innerPass cur rest).2)
        (cur :: rest)
      exact ((ih _).cons _).trans (innerPass_perm cur rest)

theorem sortGo_sorted : ∀ (fuel : Nat) (l : List (Nat × Nat)), l.length ≤ fuel →
    List.Pairwise (fun a b : Nat × Nat => a.2 ≤ b.2) (sortGo fuel l) := by
  intro fuel
  induction fuel with
  | zero =>
    intro l hl
    have h0 : l = [] := List.length_eq_zero.mp (Nat.le_zero.mp hl)
    subst h0
    exact List.Pairwise.nil
  | succ t ih =>
    intro l hl
    cases l with
    | nil => exact List.Pairwise.nil
    | cons cur rest =>
      show List.Pairwise _ ((innerPass cur rest).1 :: sortGo t (innerPass cur rest).2)
      refine List.Pairwise.cons ?_ (ih _ ?_)
      · intro b hb
        have hb2 : b ∈ (innerPass cur rest).2 := (sortGo_perm t _).mem_iff.mp hb
        exact (innerPass_min cur rest).2 b hb2
      · rw [innerPass_length]
        simpa using hl

theorem sortPasses_perm (l : List (Nat × Nat)) : List.Perm (sortPasses l) l :=
  sortGo_perm l.length l

theorem sortPasses_sorted_strict (l : List (Nat × Nat))
    (hnd : (l.map Prod.snd).Nodup) :
    List.Pairwise (fun a b : Nat × Nat => a.2 < b.2) (sortPasses l) := by
  have hsorted := sortGo_sorted l.length l le_rfl
  have hperm : List.Perm ((sortPasses l).map Prod.snd) (l.map Prod.snd) :=
    (sortPasses_perm l).map _
  have hnd2 : ((sortPasses l).map Prod.snd).Nodup := hperm.nodup_iff.mpr hnd
  have hne : List.Pairwise (fun a b : Nat × Nat => a.2 ≠ b.2) (sortPasses l) :=
    List.pairwise_map.mp hnd2
  exact (hsorted.and hne).imp (fun h => lt_of_le_of_ne h.1 h.2)

/-! Chain structure of the discovery table (C4). -/

theorem assign_limits_length : ∀ l : List (Nat × Nat),
    (assign_limits l).length = l.length := by
  intro l
  induction l with
  | nil => rfl
  | cons p rest ih =>
    cases rest with
    | nil => rfl
    | cons q rest2 => simpa [assign_limits] using ih

theorem assign_limits_chainOk : ∀ l : List (Nat × Nat),
    List.Pairwise (fun a b : Nat × Nat => a.2 < b.2) l →
    (∀ p ∈ l, p.2 < 256) → l ≠ [] → chainOk (assign_limits l) := by
  intro l
  induction l with
  | nil => intro _ _ h; exact absurd rfl h
  | cons p rest ih =>
    intro hp hlt _
    cases rest with
    | nil => rfl
    | cons q rest2 =>
      have hpq : p.2 < q.2 :=
        (List.pairwise_cons.mp hp).1 q (List.mem_cons_self q rest2)
      have hq256 : q.2 < 256 := hlt q (by simp)
      have htail := ih (List.pairwise_cons.mp hp).2
        (fun x hx => hlt x (List.mem_cons_of_mem p hx)) (by simp)
      cases rest2 with
      | nil =>
        show chainOk [⟨some p.1, 0, p.2, (q.2 + 255) % 256⟩, ⟨some q.1, 0, q.2, 0xFF⟩]
        refine ⟨hpq, ?_, rfl⟩
        show (q.2 + 255) % 256 + 1 = q.2
        omega
      | cons r rest3 =>
        show chainOk (⟨some p.1, 0, p.2, (q.2 + 255) % 256⟩ ::
          ⟨some q.1, 0, q.2, (r.2 + 255) % 256⟩ :: assign_limits (r :: rest3))
        refine ⟨hpq, ?_, htail⟩
        show (q.2 + 255) % 256 + 1 = q.2
        omega

theorem chainOk_tail : ∀ (e : NbioDev) (t : List NbioDev),
    chainOk (e :: t) → chainOk t := by
  intro e t h
  cases t with
  | nil => trivial
  | cons f t2 => exact h.2.2

theorem chain_adjacent : ∀ t : List NbioDev, chainOk t → ∀ i, i + 1 < t.length →
    (t.getD i clearedNbio).bus_limit + 1 = (t.getD (i + 1) clearedNbio).bus_base := by
  intro t
  induction t with
  | nil => intro _ i hi; simp at hi
  | cons e t2 ih =>
    intro h i hi
    cases i with
    | zero =>
      cases t2 with
      | nil => simp at hi
      | cons f t3 => exact h.2.1
    | succ j =>
      have := ih (chainOk_tail e t2 h) j (by simpa using hi)
      simpa using this

theorem chain_pairwise_base : ∀ t : List NbioDev, chainOk t →
    List.Pairwise (fun a b : NbioDev => a.bus_base < b.bus_base) t := by
  intro t
  induction t with
  | nil => intro _; exact List.Pairwise.nil
  | cons e t2 ih =>
    intro h
    have ht2 := ih (chainOk_tail e t2 h)
    refine List.Pairwise.cons ?_ ht2
    intro b hb
    cases t2 with
    | nil => simp at hb
    | cons f t3 =>
      rcases List.mem_cons.mp hb with rfl | hb2
      · exact h.1
      · exact lt_trans h.1 ((List.pairwise_cons.mp ht2).1 b hb2)

theorem chain_base_lt_idx (t : List NbioDev) (h : chainOk t) (i j : Nat)
    (hij : i < j) (hj : j < t.length) :
    (t.getD i clearedNbio).bus_base < (t.getD j clearedNbio).bus_base := by
  have hp := chain_pairwise_base t h
  have hi : i < t.length := lt_trans hij hj
  rw [List.getD_eq_get t clearedNbio hi, List.getD_eq_get t clearedNbio hj]
  exact List.pairwise_iff_get.mp hp ⟨i, hi⟩ ⟨j, hj⟩ hij

theorem chain_last : ∀ t : List NbioDev, chainOk t → t ≠ [] →
    (t.getD (t.length - 1) clearedNbio).bus_limit = 0xFF := by
  intro t
  induction t with
  | nil => intro _ h; exact absurd rfl h
  | cons e t2 ih =>
    intro h _
    cases t2 with
    | nil => exact h
    | cons f t3 =>
      have := ih (chainOk_tail e _ h) (by simp)
      simpa using this

theorem chain_cover : ∀ t : List NbioDev, chainOk t → ∀ b, b ≤ 255 →
    (t.getD 0 clearedNbio).bus_base ≤ b → t ≠ [] →
    ∃ i, i < t.length ∧ inRange (t.getD i clearedNbio) b := by
  intro t
  induction t with
  | nil => intro _ b _ _ h; exact absurd rfl h
  | cons e t2 ih =>
    intro h b hb hbase _
    by_cases hle : b ≤ e.bus_limit
    · exact ⟨0, by simp, hbase, hle⟩
    · cases t2 with
      | nil =>
        exfalso
        have hlast : e.bus_limit = 0xFF := h
        omega
      | cons f t3 =>
        have hstep : e.bus_limit + 1 = f.bus_base := h.2.1
        have hfb : f.bus_base ≤ b := by omega
        obtain ⟨i, hi, hr⟩ := ih (chainOk_tail e _ h) b hb hfb (by simp)
        exact ⟨i + 1, by simpa using hi, hr⟩

theorem chain_no_overlap (t : List NbioDev) (h : chainOk t) (b i j : Nat)
    (hij : i < j) (hj : j < t.length)
    (hri : inRange (t.getD i clearedNbio) b)
    (hrj : inRange (t.getD j clearedNbio) b) : False := by
  have hadj := chain_adjacent t h i (by omega)
  have hle : (t.getD (i + 1) clearedNbio).bus_base ≤ (t.getD j clearedNbio).bus_base := by
    rcases Nat.eq_or_lt_of_le (Nat.succ_le_of_lt hij) with heq | hlt
    · exact le_of_eq (congrArg (fun k => (t.getD k clearedNbio).bus_base) heq)
    · exact le_of_lt (chain_base_lt_idx t h (i + 1) j hlt hj)
  obtain ⟨hbi, hli⟩ := hri
  obtain ⟨hbj, hlj⟩ := hrj
  omega

/-- C4 counterexample: a successful discovery on four devices hosting
buses 1, 2, 3, 4 (distinct bus bases, none equal to 0) yields a table
whose ranges cover [1,255] only: bus 0 lies in no entry's range, so the
ranges do not partition [0,255]. -/
theorem c4_no_full_partition_cex :
    (hsmp_setup_nbios envBase1 initState).ret = 0 ∧
    (∀ i, i < MAX_NBIOS →
      ¬ inRange ((hsmp_setup_nbios envBase1 initState).st.nbios.getD i clearedNbio) 0) ∧
    bus_to_nbio_idx (hsmp_setup_nbios envBase1 initState).st.nbios 0 = -1 := by
  decide

/-- C4 (amended): for every successful discovery input (4 or 8 matched
devices with pairwise distinct u8 bus bases), the computed table is
sorted strictly ascending by bus_base, each non-last bus_limit + 1 equals
the next bus_base, the last bus_limit is 255, and the ranges
[bus_base i, bus_limit i] partition [bus_base 0, 255] — they cover
exactly the buses from the lowest discovered bus base up to 255, with no
gaps and no overlaps.  (They partition all of [0,255] only when the
lowest bus base is 0, which discovery does not enforce — see the
counterexample.) -/
theorem c4_partition_amended (ms : List (Nat × Nat))
    (hlen : ms.length = 4 ∨ ms.length = 8)
    (hnd : (ms.map Prod.snd).Nodup)
    (hlt : ∀ p ∈ ms, p.2 < 256) :
    (∀ i j, i < j → j < (assign_limits (sortPasses ms)).length →
      ((assign_limits (sortPasses ms)).getD i clearedNbio).bus_base <
      ((assign_limits (sortPasses ms)).getD j clearedNbio).bus_base) ∧
    (∀ i, i + 1 < (assign_limits (sortPasses ms)).length →
      ((assign_limits (sortPasses ms)).getD i clearedNbio).bus_limit + 1 =
      ((assign_limits (sortPasses ms)).getD (i + 1) clearedNbio).bus_base) ∧
    ((assign_limits (sortPasses ms)).getD
      ((assign_limits (sortPasses ms)).length - 1) clearedNbio).bus_limit = 255 ∧
    (∀ b, b ≤ 255 →
      (((assign_limits (sortPasses ms)).getD 0 clearedNbio).bus_base ≤ b ↔
        ∃ i, i < (assign_limits (sortPasses ms)).length ∧
          inRange ((assign_limits (sortPasses ms)).getD i clearedNbio) b)) ∧
    (∀ b i j, i < j → j < (assign_limits (sortPasses ms)).length →
      inRange ((assign_limits (sortPasses ms)).getD i clearedNbio) b →
      inRange ((assign_limits (sortPasses ms)).getD j clearedNbio) b → False) := by
  have hsorted := sortPasses_sorted_strict ms hnd
  have hlt2 : ∀ p ∈ sortPasses ms, p.2 < 256 :=
    fun p hp => hlt p ((sortPasses_perm ms).mem_iff.mp hp)
  have hne : sortPasses ms ≠ [] := by
    intro hc
    have hl := (sortPasses_perm ms).length_eq
    rw [hc] at hl
    simp at hl
    rcases hlen with h | h <;> omega
  have hchain := assign_limits_chainOk (sortPasses ms) hsorted hlt2 hne
  have hne2 : assign_limits (sortPasses ms) ≠ [] := by
    intro hc
    have := assign_limits_length (sortPasses ms)
    rw [hc] at this
    exact hne (List.length_eq_zero.mp this.symm)
  refine ⟨fun i j hij hj => chain_base_lt_idx _ hchain i j hij hj,
    fun i hi => chain_adjacent _ hchain i hi,
    chain_last _ hchain hne2, ?_, fun b i j hij hj hri hrj =>
      chain_no_overlap _ hchain b i j hij hj hri hrj⟩
  intro b hb
  constructor
  · intro hbase
    exact chain_cover _ hchain b hb hbase hne2
  · rintro ⟨i, hi, hbi, _⟩
    rcases Nat.eq_zero_or_pos i with rfl | hpos
    · exact hbi
    · exact le_trans (le_of_lt (chain_base_lt_idx _ hchain 0 i hpos hi)) hbi

theorem c4_partition_amended_witness :
    ([((0 : Nat), (1 : Nat)), (1, 2), (2, 3), (3, 4)].length = 4 ∨
      ([((0 : Nat), (1 : Nat)), (1, 2), (2, 3), (3, 4)] :
        List (Nat × Nat)).length = 8) ∧
    (([((0 : Nat), (1 : Nat)), (1, 2), (2, 3), (3, 4)].map Prod.snd).Nodup) ∧
    ((assign_limits (sortPasses [((0 : Nat), (1 : Nat)), (1, 2), (2, 3), (3, 4)])).getD
      ((assign_limits
        (sortPasses [((0 : Nat), (1 : Nat)), (1, 2), (2, 3), (3, 4)])).length - 1)
      clearedNbio).bus_limit = 255 := by
  have h := c4_partition_amended [((0 : Nat), (1 : Nat)), (1, 2), (2, 3), (3, 4)]
    (Or.inl (by decide)) (by decide) (by decide)
  exact ⟨Or.inl (by decide), by decide, h.2.2.1⟩

end LibHsmp
